import Mathlib

/-!
Verification of geotiepoints/modisinterpolator.py (MODIS geolocation
tie-point interpolation).  numpy arrays are modelled functionally as a
shape together with a total indexing function; each numpy operation used
by the source is embedded as an operation on this model, and each source
function is translated definition by definition.  All floating-point
arithmetic is idealised over the real numbers; the exact integer and
half-integer coordinate bookkeeping of the source is preserved verbatim.
The two external collaborators (lonlat2xyz / xyz2lonlat, imported by the
source from geointerpolator) are abstract parameters throughout, as the
specification treats them as out-of-scope collaborators specified only at
their interface.
-/

set_option linter.unusedVariables false

namespace Modis

/-- shape plus indexing function: model of a 1-D numpy array -/
structure Arr1 (α : Type) where
  len : ℕ
  get : ℕ → α

/-- shape plus indexing function: model of a 2-D numpy array -/
structure Arr2 (α : Type) where
  d0 : ℕ
  d1 : ℕ
  get : ℕ → ℕ → α

/-- shape plus indexing function: model of a 3-D numpy array -/
structure Arr3 (α : Type) where
  d0 : ℕ
  d1 : ℕ
  d2 : ℕ
  get : ℕ → ℕ → ℕ → α

/-- elementwise unary map (numpy ufunc broadcasting over a 2-D array) -/
def Arr2.map {α β : Type} (f : α → β) (a : Arr2 α) : Arr2 β :=
  ⟨a.d0, a.d1, fun i j => f (a.get i j)⟩

/-- elementwise unary map (numpy ufunc broadcasting over a 3-D array) -/
def Arr3.map {α β : Type} (f : α → β) (a : Arr3 α) : Arr3 β :=
  ⟨a.d0, a.d1, a.d2, fun s i j => f (a.get s i j)⟩

/-- elementwise binary operation; at every use site in the source both
operands have the same shape, so the shape of the left operand is kept -/
def Arr2.zip {α β γ : Type} (f : α → β → γ) (a : Arr2 α) (b : Arr2 β) : Arr2 γ :=
  ⟨a.d0, a.d1, fun i j => f (a.get i j) (b.get i j)⟩

noncomputable instance : Add (Arr2 ℝ) := ⟨Arr2.zip (fun u v => u + v)⟩

noncomputable instance : Mul (Arr2 ℝ) := ⟨Arr2.zip (fun u v => u * v)⟩

/-- scalar broadcast of 1 - arr -/
noncomputable def one_minus (a : Arr2 ℝ) : Arr2 ℝ := a.map (fun v => 1 - v)

/-- np.repeat(arr, k, axis=1) for a 3-D array -/
def Arr3.repeatAxis1 {α : Type} (a : Arr3 α) (k : ℕ) : Arr3 α :=
  ⟨a.d0, a.d1 * k, a.d2, fun s i j => a.get s (i / k) j⟩

/-- np.repeat(arr, k, axis=1) for a 2-D array -/
def Arr2.repeatCols {α : Type} (a : Arr2 α) (k : ℕ) : Arr2 α :=
  ⟨a.d0, a.d1 * k, fun i j => a.get i (j / k)⟩

/-- arr[:, :k, :] for a 3-D array -/
def Arr3.takeRows {α : Type} (a : Arr3 α) (k : ℕ) : Arr3 α :=
  ⟨a.d0, min k a.d1, a.d2, fun s i j => a.get s i j⟩

/-- arr[:, -k:, :] for a 3-D array; the Python index -0 selects the whole axis -/
def Arr3.takeLastRows {α : Type} (a : Arr3 α) (k : ℕ) : Arr3 α :=
  if k = 0 then a
  else ⟨a.d0, min k a.d1, a.d2, fun s i j => a.get s (a.d1 - min k a.d1 + i) j⟩

/-- arr[:, :k] for a 2-D array -/
def Arr2.takeCols {α : Type} (a : Arr2 α) (k : ℕ) : Arr2 α :=
  ⟨a.d0, min k a.d1, fun i j => a.get i j⟩

/-- arr[:, -k:] for a 2-D array; the Python index -0 selects the whole axis -/
def Arr2.takeLastCols {α : Type} (a : Arr2 α) (k : ℕ) : Arr2 α :=
  if k = 0 then a
  else ⟨a.d0, min k a.d1, fun i j => a.get i (a.d1 - min k a.d1 + j)⟩

/-- np.concatenate((u, v, w), axis=1) for 3-D arrays -/
def Arr3.concat3Axis1 {α : Type} (u v w : Arr3 α) : Arr3 α :=
  ⟨u.d0, u.d1 + v.d1 + w.d1, u.d2, fun s i j =>
    if i < u.d1 then u.get s i j
    else if i < u.d1 + v.d1 then v.get s (i - u.d1) j
    else w.get s (i - u.d1 - v.d1) j⟩

/-- np.hstack((u, v)) for 2-D arrays -/
def Arr2.hstack {α : Type} (u v : Arr2 α) : Arr2 α :=
  ⟨u.d0, u.d1 + v.d1, fun i j => if j < u.d1 then u.get i j else v.get i (j - u.d1)⟩

/-- arr.reshape((-1, m)) for a 3-D array, by flat (row-major) reindexing -/
def Arr3.reshapeTo2 {α : Type} (a : Arr3 α) (m : ℕ) : Arr2 α :=
  ⟨a.d0 * a.d1 * a.d2 / m, m, fun i j =>
    let t := i * m + j
    a.get (t / (a.d1 * a.d2)) (t / a.d2 % a.d1) (t % a.d2)⟩

/-- arr.reshape((-1, k, w)) for a 2-D array, by flat (row-major) reindexing -/
def Arr2.reshapeTo3 {α : Type} (a : Arr2 α) (k w : ℕ) : Arr3 α :=
  ⟨a.d0 * a.d1 / (k * w), k, w, fun s i j =>
    let t := (s * k + i) * w + j
    a.get (t / a.d1) (t % a.d1)⟩

/-- np.meshgrid(x, y): a pair of arrays of shape (y.len, x.len), the first
repeating x along rows, the second repeating y along columns -/
def meshgrid {α : Type} (x y : Arr1 α) : Arr2 α × Arr2 α :=
  (⟨y.len, x.len, fun r c => x.get c⟩, ⟨y.len, x.len, fun r c => y.get r⟩)

/-- Python exceptions that the source can raise -/
inductive PyErr where
  | keyError : PyErr
  | attributeError : PyErr
  | zeroDivisionError : PyErr
  | notImplementedError : String → PyErr
deriving DecidableEq

/-- true exactly on a successful Except value -/
def exceptIsOk {ε α : Type} : Except ε α → Bool
  | .ok _ => true
  | .error _ => false

/-- module constant R = 6371. (Earth radius, km) -/
noncomputable def R : ℝ := 6371

/-- module constant scan_width = 10.00017 (Aqua scan width, km) -/
noncomputable def scan_width : ℝ := 10.00017

/-- module constant H = 705. (satellite altitude, km) -/
noncomputable def H : ℝ := 705

/-- compute_phi(zeta) = np.arcsin(R * np.sin(zeta) / (R + H)) -/
noncomputable def compute_phi (zeta : ℝ) : ℝ :=
  Real.arcsin (R * Real.sin zeta / (R + H))

/-- compute_theta(zeta, phi) = zeta - phi -/
noncomputable def compute_theta (zeta phi : ℝ) : ℝ := zeta - phi

/-- compute_zeta(phi) = np.arcsin((R + H) * np.sin(phi) / R) -/
noncomputable def compute_zeta (phi : ℝ) : ℝ :=
  Real.arcsin ((R + H) * Real.sin phi / R)

/-- line 68 of compute_expansion_alignment:
np.where(theta_a == theta_b, theta_a * 2, theta_a - theta_b), where
theta_a and theta_b are derived from the A and B corner zenith angles -/
noncomputable def compute_denominator (satz_a satz_b : ℝ) : ℝ :=
  let theta_a := compute_theta satz_a (compute_phi satz_a)
  let theta_b := compute_theta satz_b (compute_phi satz_b)
  if theta_a = theta_b then theta_a * 2 else theta_a - theta_b

/-- compute_expansion_alignment (scalar form; the source applies these
formulas elementwise over equally shaped corner arrays).  All angles in
radians.  satz_c and satz_d are accepted, as in the source, but unused. -/
noncomputable def compute_expansion_alignment (satz_a satz_b satz_c satz_d : ℝ) : ℝ × ℝ :=
  let zeta_a := satz_a
  let zeta_b := satz_b
  let phi_a := compute_phi zeta_a
  let phi_b := compute_phi zeta_b
  let theta_a := compute_theta zeta_a phi_a
  let theta_b := compute_theta zeta_b phi_b
  let phi := (phi_a + phi_b) / 2
  let zeta := compute_zeta phi
  let theta := compute_theta zeta phi
  let denominator := compute_denominator satz_a satz_b
  let c_expansion := 4 * (((theta_a + theta_b) / 2 - theta) / denominator)
  let sin_beta_2 := scan_width / (2 * H)
  let d := ((R + H) / R * Real.cos phi - Real.cos zeta) * sin_beta_2
  let e := Real.cos zeta - Real.sqrt (Real.cos zeta ^ 2 - d ^ 2)
  let c_alignment := 4 * e * Real.sin zeta / denominator
  (c_expansion, c_alignment)

/-- compute_expansion_alignment applied elementwise to the four corner
arrays (numpy broadcasting of equal shapes) -/
noncomputable def compute_expansion_alignment_arr (sa sb sc sd : Arr3 ℝ) : Arr3 ℝ × Arr3 ℝ :=
  (⟨sa.d0, sa.d1, sa.d2, fun s i j =>
      (compute_expansion_alignment (sa.get s i j) (sb.get s i j) (sc.get s i j) (sd.get s i j)).1⟩,
   ⟨sa.d0, sa.d1, sa.d2, fun s i j =>
      (compute_expansion_alignment (sa.get s i j) (sb.get s i j) (sc.get s i j) (sd.get s i j)).2⟩)

/-- get_corners(arr): the four shifted views
arr[:, :-1, :-1], arr[:, :-1, 1:], arr[:, 1:, 1:], arr[:, 1:, :-1] -/
def get_corners {α : Type} (arr : Arr3 α) : Arr3 α × Arr3 α × Arr3 α × Arr3 α :=
  (⟨arr.d0, arr.d1 - 1, arr.d2 - 1, fun s i j => arr.get s i j⟩,
   ⟨arr.d0, arr.d1 - 1, arr.d2 - 1, fun s i j => arr.get s i (j + 1)⟩,
   ⟨arr.d0, arr.d1 - 1, arr.d2 - 1, fun s i j => arr.get s (i + 1) (j + 1)⟩,
   ⟨arr.d0, arr.d1 - 1, arr.d2 - 1, fun s i j => arr.get s (i + 1) j⟩)

/-- the f_factor dict lookup {250: 4, 500: 2, 1000: 1}[fres] of
ModisInterpolator.__init__; none models the KeyError -/
def f_factor_of (fres : ℕ) : Option ℕ :=
  if fres = 250 then some 4
  else if fres = 500 then some 2
  else if fres = 1000 then some 1
  else none

/-- the scan geometry attributes stored by ModisInterpolator.__init__ -/
structure ScanGeometry where
  cres : ℕ
  cscan_len : ℕ
  cscan_width : ℕ
  cscan_full_width : ℕ
  res_factor : ℕ
  fscan_width : ℕ
  fscan_full_width : ℕ
  fscan_len : ℕ
deriving DecidableEq

/-- ModisInterpolator.__init__(cres, fres, cscan_full_width=None).
The if/elif on cres sets the coarse attributes (or none of them); for an
unrecognised cres the later access self.cscan_width raises AttributeError;
cres // fres raises ZeroDivisionError for fres = 0 (before the dict
lookup); an unrecognised fres raises KeyError at the dict lookup.  Note
that no check of cscan_full_width is made here. -/
def ModisInterpolator.init (cres fres : ℕ) (cscan_full_width : Option ℕ) :
    Except PyErr ScanGeometry :=
  let coarse : Option (ℕ × ℕ × ℕ) :=
    if cres = 1000 then some (10, 1, 1354)
    else if cres = 5000 then some (2, 5, cscan_full_width.getD 271)
    else none
  if fres = 0 then .error .zeroDivisionError
  else
    match f_factor_of fres with
    | none => .error .keyError
    | some f_factor =>
      match coarse with
      | none => .error .attributeError
      | some (cscan_len, cscan_width, cfw) =>
        .ok { cres := cres
              cscan_len := cscan_len
              cscan_width := cscan_width
              cscan_full_width := cfw
              res_factor := cres / fres
              fscan_width := f_factor * cscan_width
              fscan_full_width := 1354 * f_factor
              fscan_len := f_factor * 10 / cscan_len }

/-- the 5km NotImplementedError message (source line 231) -/
def fiveKmErrMsg : String :=
  "Cant interpolate if 5km tiepoints have less than 270 columns."

/-- the warning message of modis_5km_to_500m -/
def warn500Msg : String :=
  "Interpolating 5km geolocation to 500m resolution may result in poor quality"

/-- the warning message of modis_5km_to_250m -/
def warn250Msg : String :=
  "Interpolating 5km geolocation to 250m resolution may result in poor quality"

/-- _get_coords_1km (source lines 200-209).  The row coordinate is built as
(np.arange((cscan_len + 1) * fscan_len) % fscan_len) + .5, cropped by
[fscan_len//2 : -(fscan_len//2)] (a Python stop index -0 empties the
slice), its first fscan_len//2 entries overwritten with
np.arange(-fscan_len/2 + .5, 0), its last fscan_len//2 entries overwritten
with np.arange(fscan_len + .5, fscan_len * 3 / 2) (a Python start index -0
overwrites the whole, then empty, slice), and tiled scans times.  The
column coordinate is np.arange(fscan_full_width) % fscan_width with the
last fscan_width entries overwritten by
np.arange(fscan_width, fscan_width * 2). -/
noncomputable def _get_coords_1km
    (cscan_len cscan_full_width fscan_len fscan_width fscan_full_width scans : ℕ) :
    Arr1 ℝ × Arr1 ℝ :=
  let h := fscan_len / 2
  let ylen := if h = 0 then 0 else (cscan_len + 1) * fscan_len - 2 * h
  let yedit : ℕ → ℝ := fun p =>
    if p < h then -(fscan_len : ℝ) / 2 + 1 / 2 + (p : ℝ)
    else if ylen - h ≤ p then (fscan_len : ℝ) + 1 / 2 + ((p - (ylen - h) : ℕ) : ℝ)
    else (((p + h) % fscan_len : ℕ) : ℝ) + 1 / 2
  let y : Arr1 ℝ := ⟨ylen * scans, fun r => yedit (r % ylen)⟩
  let x : Arr1 ℝ := ⟨fscan_full_width, fun j =>
    if fscan_full_width - fscan_width ≤ j then
      (fscan_width : ℝ) + ((j - (fscan_full_width - fscan_width) : ℕ) : ℝ)
    else ((j % fscan_width : ℕ) : ℝ)⟩
  (x, y)

/-- _get_coords_5km (source lines 212-232).  The row coordinate is
np.tile(np.arange(fscan_len * cscan_len) - 2, scans).  The column
coordinate is (np.arange(fscan_full_width) - 2) % fscan_width with
x[0] = -2 and x[1] = -1, then trailing overrides chosen by
cscan_full_width: two (5, 6) for 271, seven (5..11) for 270, and a
NotImplementedError for any other width. -/
noncomputable def _get_coords_5km
    (cscan_len cscan_full_width fscan_len fscan_width fscan_full_width scans : ℕ) :
    Except PyErr (Arr1 ℝ × Arr1 ℝ) :=
  let y : Arr1 ℝ :=
    ⟨fscan_len * cscan_len * scans,
     fun r => ((r % (fscan_len * cscan_len) : ℕ) : ℝ) - 2⟩
  let xbase : ℕ → ℝ := fun j => ((((j : ℤ) - 2) % (fscan_width : ℤ) : ℤ) : ℝ)
  if cscan_full_width = 271 then
    .ok (⟨fscan_full_width, fun j =>
      if j = 0 then -2
      else if j = 1 then -1
      else if j = fscan_full_width - 2 then 5
      else if j = fscan_full_width - 1 then 6
      else xbase j⟩, y)
  else if cscan_full_width = 270 then
    .ok (⟨fscan_full_width, fun j =>
      if j = 0 then -2
      else if j = 1 then -1
      else if j = fscan_full_width - 7 then 5
      else if j = fscan_full_width - 6 then 6
      else if j = fscan_full_width - 5 then 7
      else if j = fscan_full_width - 4 then 8
      else if j = fscan_full_width - 3 then 9
      else if j = fscan_full_width - 2 then 10
      else if j = fscan_full_width - 1 then 11
      else xbase j⟩, y)
  else .error (.notImplementedError fiveKmErrMsg)

/-- _expand_tiepoint_array_1km (source lines 235-239):
arr = np.repeat(arr, lines, axis=1);
arr = np.concatenate((arr[:, :lines//2, :], arr, arr[:, -(lines//2):, :]), axis=1);
arr = np.repeat(arr.reshape((-1, cscan_full_width - 1)), cols, axis=1);
return np.hstack((arr, arr[:, -cols:])) -/
def _expand_tiepoint_array_1km (cscan_width cscan_full_width fscan_width : ℕ)
    (arr : Arr3 ℝ) (lines cols : ℕ) : Arr2 ℝ :=
  let a1 := arr.repeatAxis1 lines
  let a2 := Arr3.concat3Axis1 (a1.takeRows (lines / 2)) a1 (a1.takeLastRows (lines / 2))
  let a3 := (a2.reshapeTo2 (cscan_full_width - 1)).repeatCols cols
  a3.hstack (a3.takeLastCols cols)

/-- _expand_tiepoint_array_5km (source lines 242-249):
arr = np.repeat(arr, lines * 2, axis=1);
arr = np.repeat(arr.reshape((-1, cscan_full_width - 1)), cols, axis=1);
factor = fscan_width // cscan_width; then for width 271
np.hstack((arr[:, :2*factor], arr, arr[:, -2*factor:])), otherwise
np.hstack((arr[:, :2*factor], arr, arr[:, -fscan_width:], arr[:, -2*factor:])) -/
def _expand_tiepoint_array_5km (cscan_width cscan_full_width fscan_width : ℕ)
    (arr : Arr3 ℝ) (lines cols : ℕ) : Arr2 ℝ :=
  let a1 := arr.repeatAxis1 (lines * 2)
  let a3 := (a1.reshapeTo2 (cscan_full_width - 1)).repeatCols cols
  let factor := fscan_width / cscan_width
  if cscan_full_width = 271 then
    (a3.takeCols (2 * factor)).hstack (a3.hstack (a3.takeLastCols (2 * factor)))
  else
    (a3.takeCols (2 * factor)).hstack
      ((a3.hstack (a3.takeLastCols fscan_width)).hstack (a3.takeLastCols (2 * factor)))

/-- source line 154: get_coords = _get_coords_1km if cres == 1000 else _get_coords_5km -/
noncomputable def get_coords_dispatch
    (cres cscan_len cscan_full_width fscan_len fscan_width fscan_full_width scans : ℕ) :
    Except PyErr (Arr1 ℝ × Arr1 ℝ) :=
  if cres = 1000 then
    .ok (_get_coords_1km cscan_len cscan_full_width fscan_len fscan_width fscan_full_width scans)
  else
    _get_coords_5km cscan_len cscan_full_width fscan_len fscan_width fscan_full_width scans

/-- source line 155: expand_tiepoint_array selection by cres -/
def expand_tiepoint_dispatch (cres : ℕ) :
    ℕ → ℕ → ℕ → Arr3 ℝ → ℕ → ℕ → Arr2 ℝ :=
  if cres = 1000 then _expand_tiepoint_array_1km else _expand_tiepoint_array_5km

/-- np.deg2rad -/
noncomputable def deg2rad (x : ℝ) : ℝ := x * Real.pi / 180

/-- source lines 163-170: i_rs, i_rt = np.meshgrid(x, y); with the zero
pixel offsets p_os = p_ot = 0, s_s = (p_os + i_rs) * 1. / fscan_width and
s_t = (p_ot + i_rt) * 1. / fscan_len -/
noncomputable def s_arrays (x y : Arr1 ℝ) (fscan_width fscan_len : ℕ) : Arr2 ℝ × Arr2 ℝ :=
  let g := meshgrid x y
  ((g.1).map (fun v => (0 + v) * 1 / (fscan_width : ℝ)),
   (g.2).map (fun v => (0 + v) * 1 / (fscan_len : ℝ)))

/-- lonlat2xyz applied elementwise; the conversion itself is the external
collaborator toCart -/
noncomputable def lonlat2xyz_arr (toCart : ℝ → ℝ → ℝ × ℝ × ℝ) (lon lat : Arr2 ℝ) :
    Arr2 ℝ × Arr2 ℝ × Arr2 ℝ :=
  (⟨lon.d0, lon.d1, fun i j => (toCart (lon.get i j) (lat.get i j)).1⟩,
   ⟨lon.d0, lon.d1, fun i j => (toCart (lon.get i j) (lat.get i j)).2.1⟩,
   ⟨lon.d0, lon.d1, fun i j => (toCart (lon.get i j) (lat.get i j)).2.2⟩)

/-- xyz2lonlat applied elementwise; the conversion itself is the external
collaborator fromCart -/
noncomputable def xyz2lonlat_arr (fromCart : ℝ → ℝ → ℝ → ℝ × ℝ) (x y z : Arr2 ℝ) :
    Arr2 ℝ × Arr2 ℝ :=
  (⟨x.d0, x.d1, fun i j => (fromCart (x.get i j) (y.get i j) (z.get i j)).1⟩,
   ⟨x.d0, x.d1, fun i j => (fromCart (x.get i j) (y.get i j) (z.get i j)).2⟩)

/-- the per-component corner blend of _interpolate (source lines 183-195):
reshape to scans, extract corners, expand each corner to fine resolution,
then data_1 = (1 - a_scan) * data_a + a_scan * data_b,
data_2 = (1 - a_scan) * data_d + a_scan * data_c,
data = (1 - a_track) * data_1 + a_track * data_2 -/
noncomputable def blend_component (cres cscan_len cscan_width cscan_full_width fscan_width : ℕ)
    (lines cols : ℕ) (a_scan a_track : Arr2 ℝ) (dat : Arr2 ℝ) : Arr2 ℝ :=
  let expand := expand_tiepoint_dispatch cres
  let cr := get_corners (dat.reshapeTo3 cscan_len cscan_full_width)
  let data_a := expand cscan_width cscan_full_width fscan_width cr.1 lines cols
  let data_b := expand cscan_width cscan_full_width fscan_width cr.2.1 lines cols
  let data_c := expand cscan_width cscan_full_width fscan_width cr.2.2.1 lines cols
  let data_d := expand cscan_width cscan_full_width fscan_width cr.2.2.2 lines cols
  let data_1 := one_minus a_scan * data_a + a_scan * data_b
  let data_2 := one_minus a_scan * data_d + a_scan * data_c
  one_minus a_track * data_1 + a_track * data_2

/-- _interpolate (source lines 139-197), the undecorated function applied
to one well-formed chunk (the scanline_mapblocks dispatcher is the external
chunking collaborator; it passes whole multiples of rows_per_scan rows).
res_factor and rows_per_scan are accepted, as in the source, but unused in
the body. -/
noncomputable def _interpolate (toCart : ℝ → ℝ → ℝ × ℝ × ℝ) (fromCart : ℝ → ℝ → ℝ → ℝ × ℝ)
    (lon1 lat1 satz1 : Arr2 ℝ)
    (cres cscan_len cscan_width cscan_full_width fscan_len fscan_width fscan_full_width : ℕ)
    (res_factor rows_per_scan : ℕ) :
    Except PyErr (Arr2 ℝ × Arr2 ℝ) :=
  let scans := satz1.d0 / cscan_len
  let satz3 := (satz1.reshapeTo3 cscan_len cscan_full_width).map deg2rad
  let cr := get_corners satz3
  let cea := compute_expansion_alignment_arr cr.1 cr.2.1 cr.2.2.1 cr.2.2.2
  match get_coords_dispatch cres cscan_len cscan_full_width fscan_len fscan_width
      fscan_full_width scans with
  | .error e => .error e
  | .ok xy =>
    let s := s_arrays xy.1 xy.2 fscan_width fscan_len
    let cols := fscan_width
    let lines := fscan_len
    let expand := expand_tiepoint_dispatch cres
    let c_exp_full := expand cscan_width cscan_full_width fscan_width cea.1 lines cols
    let c_ali_full := expand cscan_width cscan_full_width fscan_width cea.2 lines cols
    let a_track := s.2
    let a_scan := s.1 + s.1 * one_minus s.1 * c_exp_full + s.2 * one_minus s.2 * c_ali_full
    let datasets := lonlat2xyz_arr toCart lon1 lat1
    let rx := blend_component cres cscan_len cscan_width cscan_full_width fscan_width
      lines cols a_scan a_track datasets.1
    let ry := blend_component cres cscan_len cscan_width cscan_full_width fscan_width
      lines cols a_scan a_track datasets.2.1
    let rz := blend_component cres cscan_len cscan_width cscan_full_width fscan_width
      lines cols a_scan a_track datasets.2.2
    .ok (xyz2lonlat_arr fromCart rx ry rz)

/-- ModisInterpolator.interpolate (source lines 116-136): forwards the
stored geometry to _interpolate with rows_per_scan = cscan_len -/
noncomputable def ModisInterpolator.interpolate (toCart : ℝ → ℝ → ℝ × ℝ × ℝ)
    (fromCart : ℝ → ℝ → ℝ → ℝ × ℝ) (g : ScanGeometry)
    (orig_lons orig_lats satz1 : Arr2 ℝ) : Except PyErr (Arr2 ℝ × Arr2 ℝ) :=
  _interpolate toCart fromCart orig_lons orig_lats satz1 g.cres g.cscan_len g.cscan_width
    g.cscan_full_width g.fscan_len g.fscan_width g.fscan_full_width g.res_factor g.cscan_len

/-- modis_1km_to_250m (source lines 252-255).  The first component lists
the warnings emitted through warnings.warn (none here). -/
noncomputable def modis_1km_to_250m (toCart : ℝ → ℝ → ℝ × ℝ × ℝ)
    (fromCart : ℝ → ℝ → ℝ → ℝ × ℝ) (lon1 lat1 satz1 : Arr2 ℝ) :
    List String × Except PyErr (Arr2 ℝ × Arr2 ℝ) :=
  ([], match ModisInterpolator.init 1000 250 none with
       | .error e => .error e
       | .ok g => ModisInterpolator.interpolate toCart fromCart g lon1 lat1 satz1)

/-- modis_1km_to_500m (source lines 258-261) -/
noncomputable def modis_1km_to_500m (toCart : ℝ → ℝ → ℝ × ℝ × ℝ)
    (fromCart : ℝ → ℝ → ℝ → ℝ × ℝ) (lon1 lat1 satz1 : Arr2 ℝ) :
    List String × Except PyErr (Arr2 ℝ × Arr2 ℝ) :=
  ([], match ModisInterpolator.init 1000 500 none with
       | .error e => .error e
       | .ok g => ModisInterpolator.interpolate toCart fromCart g lon1 lat1 satz1)

/-- modis_5km_to_1km (source lines 264-267); passes lon1.shape[1] as the
coarse full width -/
noncomputable def modis_5km_to_1km (toCart : ℝ → ℝ → ℝ × ℝ × ℝ)
    (fromCart : ℝ → ℝ → ℝ → ℝ × ℝ) (lon1 lat1 satz1 : Arr2 ℝ) :
    List String × Except PyErr (Arr2 ℝ × Arr2 ℝ) :=
  ([], match ModisInterpolator.init 5000 1000 (some lon1.d1) with
       | .error e => .error e
       | .ok g => ModisInterpolator.interpolate toCart fromCart g lon1 lat1 satz1)

/-- modis_5km_to_500m (source lines 270-275); emits a degraded-quality
warning through warnings.warn and then computes as usual -/
noncomputable def modis_5km_to_500m (toCart : ℝ → ℝ → ℝ × ℝ × ℝ)
    (fromCart : ℝ → ℝ → ℝ → ℝ × ℝ) (lon1 lat1 satz1 : Arr2 ℝ) :
    List String × Except PyErr (Arr2 ℝ × Arr2 ℝ) :=
  ([warn500Msg],
   match ModisInterpolator.init 5000 500 (some lon1.d1) with
   | .error e => .error e
   | .ok g => ModisInterpolator.interpolate toCart fromCart g lon1 lat1 satz1)

/-- modis_5km_to_250m (source lines 278-283); emits a degraded-quality
warning through warnings.warn and then computes as usual -/
noncomputable def modis_5km_to_250m (toCart : ℝ → ℝ → ℝ × ℝ × ℝ)
    (fromCart : ℝ → ℝ → ℝ → ℝ × ℝ) (lon1 lat1 satz1 : Arr2 ℝ) :
    List String × Except PyErr (Arr2 ℝ × Arr2 ℝ) :=
  ([warn250Msg],
   match ModisInterpolator.init 5000 250 (some lon1.d1) with
   | .error e => .error e
   | .ok g => ModisInterpolator.interpolate toCart fromCart g lon1 lat1 satz1)

/-- the per-pixel value of the corner-weighted interpolation exactly as
the specification states it (spec section 4.6): corrected coordinates
a_track = s_track and a_scan = s_scan + s_scan * (1 - s_scan) * c_expansion
+ s_track * (1 - s_track) * c_alignment (coefficients expanded to fine
resolution), blend top = (1-a_scan)A + a_scan B,
bottom = (1-a_scan)D + a_scan C, value = (1-a_track) top + a_track bottom,
applied to each of the 3 Cartesian components of the converted corners and
converted back by the external inverse conversion -/
noncomputable def spec_blend_value (toCart : ℝ → ℝ → ℝ × ℝ × ℝ)
    (fromCart : ℝ → ℝ → ℝ → ℝ × ℝ) (lon1 lat1 satz1 : Arr2 ℝ)
    (cres cscan_len cscan_width cscan_full_width fscan_len fscan_width : ℕ)
    (x y : Arr1 ℝ) (r c : ℕ) : ℝ × ℝ :=
  let s_scan : ℝ := x.get c / (fscan_width : ℝ)
  let s_track : ℝ := y.get r / (fscan_len : ℝ)
  let expand := expand_tiepoint_dispatch cres
  let satz3 := (satz1.reshapeTo3 cscan_len cscan_full_width).map deg2rad
  let cr := get_corners satz3
  let cea := compute_expansion_alignment_arr cr.1 cr.2.1 cr.2.2.1 cr.2.2.2
  let c_expansion := (expand cscan_width cscan_full_width fscan_width cea.1 fscan_len
    fscan_width).get r c
  let c_alignment := (expand cscan_width cscan_full_width fscan_width cea.2 fscan_len
    fscan_width).get r c
  let a_scan := s_scan + s_scan * (1 - s_scan) * c_expansion
    + s_track * (1 - s_track) * c_alignment
  let a_track := s_track
  let corner_blend := fun (dat : Arr2 ℝ) =>
    let q := get_corners (dat.reshapeTo3 cscan_len cscan_full_width)
    let va := (expand cscan_width cscan_full_width fscan_width q.1 fscan_len
      fscan_width).get r c
    let vb := (expand cscan_width cscan_full_width fscan_width q.2.1 fscan_len
      fscan_width).get r c
    let vc := (expand cscan_width cscan_full_width fscan_width q.2.2.1 fscan_len
      fscan_width).get r c
    let vd := (expand cscan_width cscan_full_width fscan_width q.2.2.2 fscan_len
      fscan_width).get r c
    let top := (1 - a_scan) * va + a_scan * vb
    let bottom := (1 - a_scan) * vd + a_scan * vc
    (1 - a_track) * top + a_track * bottom
  let ds := lonlat2xyz_arr toCart lon1 lat1
  fromCart (corner_blend ds.1) (corner_blend ds.2.1) (corner_blend ds.2.2)

/-! Simp lemmas for the array model: shape and element laws of each
operation, all definitional. -/

@[simp] theorem Arr2.map_d0 {α β : Type} (f : α → β) (a : Arr2 α) : (a.map f).d0 = a.d0 := rfl

@[simp] theorem Arr2.map_d1 {α β : Type} (f : α → β) (a : Arr2 α) : (a.map f).d1 = a.d1 := rfl

@[simp] theorem Arr2.map_get {α β : Type} (f : α → β) (a : Arr2 α) (i j : ℕ) :
    (a.map f).get i j = f (a.get i j) := rfl

@[simp] theorem Arr3.map_get3 {α β : Type} (f : α → β) (a : Arr3 α) (s i j : ℕ) :
    (a.map f).get s i j = f (a.get s i j) := rfl

@[simp] theorem Arr2.zip_d0 {α β γ : Type} (f : α → β → γ) (a : Arr2 α) (b : Arr2 β) :
    (Arr2.zip f a b).d0 = a.d0 := rfl

@[simp] theorem Arr2.zip_d1 {α β γ : Type} (f : α → β → γ) (a : Arr2 α) (b : Arr2 β) :
    (Arr2.zip f a b).d1 = a.d1 := rfl

@[simp] theorem Arr2.zip_get {α β γ : Type} (f : α → β → γ) (a : Arr2 α) (b : Arr2 β) (i j : ℕ) :
    (Arr2.zip f a b).get i j = f (a.get i j) (b.get i j) := rfl

@[simp] theorem Arr2.add_d0 (a b : Arr2 ℝ) : (a + b).d0 = a.d0 := rfl

@[simp] theorem Arr2.add_d1 (a b : Arr2 ℝ) : (a + b).d1 = a.d1 := rfl

@[simp] theorem Arr2.add_get (a b : Arr2 ℝ) (i j : ℕ) :
    (a + b).get i j = a.get i j + b.get i j := rfl

@[simp] theorem Arr2.mul_d0 (a b : Arr2 ℝ) : (a * b).d0 = a.d0 := rfl

@[simp] theorem Arr2.mul_d1 (a b : Arr2 ℝ) : (a * b).d1 = a.d1 := rfl

@[simp] theorem Arr2.mul_get (a b : Arr2 ℝ) (i j : ℕ) :
    (a * b).get i j = a.get i j * b.get i j := rfl

@[simp] theorem one_minus_d0 (a : Arr2 ℝ) : (one_minus a).d0 = a.d0 := rfl

@[simp] theorem one_minus_d1 (a : Arr2 ℝ) : (one_minus a).d1 = a.d1 := rfl

@[simp] theorem one_minus_get (a : Arr2 ℝ) (i j : ℕ) :
    (one_minus a).get i j = 1 - a.get i j := rfl

@[simp] theorem Arr3.repeatAxis1_d0 {α : Type} (a : Arr3 α) (k : ℕ) :
    (a.repeatAxis1 k).d0 = a.d0 := rfl

@[simp] theorem Arr3.repeatAxis1_d1 {α : Type} (a : Arr3 α) (k : ℕ) :
    (a.repeatAxis1 k).d1 = a.d1 * k := rfl

@[simp] theorem Arr3.repeatAxis1_d2 {α : Type} (a : Arr3 α) (k : ℕ) :
    (a.repeatAxis1 k).d2 = a.d2 := rfl

@[simp] theorem Arr3.repeatAxis1_get {α : Type} (a : Arr3 α) (k s i j : ℕ) :
    (a.repeatAxis1 k).get s i j = a.get s (i / k) j := rfl

@[simp] theorem Arr2.repeatCols_d0 {α : Type} (a : Arr2 α) (k : ℕ) :
    (a.repeatCols k).d0 = a.d0 := rfl

@[simp] theorem Arr2.repeatCols_d1 {α : Type} (a : Arr2 α) (k : ℕ) :
    (a.repeatCols k).d1 = a.d1 * k := rfl

@[simp] theorem Arr2.repeatCols_get {α : Type} (a : Arr2 α) (k i j : ℕ) :
    (a.repeatCols k).get i j = a.get i (j / k) := rfl

@[simp] theorem Arr2.hstack_d0 {α : Type} (u v : Arr2 α) : (u.hstack v).d0 = u.d0 := rfl

@[simp] theorem Arr2.hstack_d1 {α : Type} (u v : Arr2 α) : (u.hstack v).d1 = u.d1 + v.d1 := rfl

@[simp] theorem Arr2.hstack_get {α : Type} (u v : Arr2 α) (i j : ℕ) :
    (u.hstack v).get i j = if j < u.d1 then u.get i j else v.get i (j - u.d1) := rfl

@[simp] theorem Arr3.reshapeTo2_d0 {α : Type} (a : Arr3 α) (m : ℕ) :
    (a.reshapeTo2 m).d0 = a.d0 * a.d1 * a.d2 / m := rfl

@[simp] theorem Arr3.reshapeTo2_d1 {α : Type} (a : Arr3 α) (m : ℕ) :
    (a.reshapeTo2 m).d1 = m := rfl

@[simp] theorem Arr2.reshapeTo3_d0 {α : Type} (a : Arr2 α) (k w : ℕ) :
    (a.reshapeTo3 k w).d0 = a.d0 * a.d1 / (k * w) := rfl

@[simp] theorem Arr2.reshapeTo3_d1 {α : Type} (a : Arr2 α) (k w : ℕ) :
    (a.reshapeTo3 k w).d1 = k := rfl

@[simp] theorem Arr2.reshapeTo3_d2 {α : Type} (a : Arr2 α) (k w : ℕ) :
    (a.reshapeTo3 k w).d2 = w := rfl

theorem Arr3.takeRows_get {α : Type} (a : Arr3 α) (k s i j : ℕ) :
    (a.takeRows k).get s i j = a.get s i j := rfl

theorem Arr3.takeRows_d1 {α : Type} (a : Arr3 α) (k : ℕ) :
    (a.takeRows k).d1 = min k a.d1 := rfl

theorem Arr3.takeLastRows_get {α : Type} (a : Arr3 α) (k : ℕ) (hk : k ≠ 0) (s i j : ℕ) :
    (a.takeLastRows k).get s i j = a.get s (a.d1 - min k a.d1 + i) j := by
  simp [Arr3.takeLastRows, hk]

theorem Arr3.takeLastRows_d1 {α : Type} (a : Arr3 α) (k : ℕ) (hk : k ≠ 0) :
    (a.takeLastRows k).d1 = min k a.d1 := by
  simp [Arr3.takeLastRows, hk]

theorem Arr3.concat3Axis1_get {α : Type} (u v w : Arr3 α) (s i j : ℕ) :
    (Arr3.concat3Axis1 u v w).get s i j =
      if i < u.d1 then u.get s i j
      else if i < u.d1 + v.d1 then v.get s (i - u.d1) j
      else w.get s (i - u.d1 - v.d1) j := rfl

theorem Arr3.concat3Axis1_d1 {α : Type} (u v w : Arr3 α) :
    (Arr3.concat3Axis1 u v w).d1 = u.d1 + v.d1 + w.d1 := rfl

theorem Arr3.concat3Axis1_d0 {α : Type} (u v w : Arr3 α) :
    (Arr3.concat3Axis1 u v w).d0 = u.d0 := rfl

theorem Arr3.concat3Axis1_d2 {α : Type} (u v w : Arr3 α) :
    (Arr3.concat3Axis1 u v w).d2 = u.d2 := rfl

theorem Arr2.takeCols_get {α : Type} (a : Arr2 α) (k i j : ℕ) :
    (a.takeCols k).get i j = a.get i j := rfl

theorem Arr2.takeCols_d1 {α : Type} (a : Arr2 α) (k : ℕ) :
    (a.takeCols k).d1 = min k a.d1 := rfl

theorem Arr2.takeLastCols_get {α : Type} (a : Arr2 α) (k : ℕ) (hk : k ≠ 0) (i j : ℕ) :
    (a.takeLastCols k).get i j = a.get i (a.d1 - min k a.d1 + j) := by
  simp [Arr2.takeLastCols, hk]

theorem Arr2.takeLastCols_d1 {α : Type} (a : Arr2 α) (k : ℕ) (hk : k ≠ 0) :
    (a.takeLastCols k).d1 = min k a.d1 := by
  simp [Arr2.takeLastCols, hk]

theorem Arr3.reshapeTo2_get_eq {α : Type} (a : Arr3 α) (m : ℕ) (i j : ℕ) (hm : a.d2 = m)
    (hj : j < a.d2) (hd2 : 0 < a.d2) :
    (a.reshapeTo2 m).get i j = a.get (i / a.d1) (i % a.d1) j := by
  subst hm
  show a.get ((i * a.d2 + j) / (a.d1 * a.d2)) ((i * a.d2 + j) / a.d2 % a.d1)
      ((i * a.d2 + j) % a.d2) = _
  have h1 : (i * a.d2 + j) / a.d2 = i := by
    rw [Nat.mul_comm, Nat.mul_add_div hd2, Nat.div_eq_of_lt hj, Nat.add_zero]
  have h2 : (i * a.d2 + j) % a.d2 = j := by
    rw [Nat.mul_comm, Nat.mul_add_mod, Nat.mod_eq_of_lt hj]
  have h3 : (i * a.d2 + j) / (a.d1 * a.d2) = i / a.d1 := by
    rw [Nat.mul_comm a.d1 a.d2, ← Nat.div_div_eq_div_mul, h1]
  rw [h1, h2, h3]

theorem Arr2.reshapeTo3_get_eq {α : Type} (a : Arr2 α) (k w s i j : ℕ) (hw : a.d1 = w)
    (hj : j < a.d1) :
    (a.reshapeTo3 k w).get s i j = a.get (s * k + i) j := by
  subst hw
  show a.get (((s * k + i) * a.d1 + j) / a.d1) (((s * k + i) * a.d1 + j) % a.d1) = _
  have hd1 : 0 < a.d1 := lt_of_le_of_lt (Nat.zero_le j) hj
  have h1 : ((s * k + i) * a.d1 + j) / a.d1 = s * k + i := by
    rw [Nat.mul_comm, Nat.mul_add_div hd1, Nat.div_eq_of_lt hj, Nat.add_zero]
  have h2 : ((s * k + i) * a.d1 + j) % a.d1 = j := by
    rw [Nat.mul_comm, Nat.mul_add_mod, Nat.mod_eq_of_lt hj]
  rw [h1, h2]

/-! Claim theorems -/

/-- C1 counterexample: constructing a ModisInterpolator with coarse
resolution 5000 and coarse full width 269 does NOT fail; the width check
claimed to happen before any array computation is absent from the
constructor. -/
theorem c1_counterexample :
    exceptIsOk (ModisInterpolator.init 5000 1000 (some 269)) = true := rfl

/-- C1 (amended): construction fails exactly when the fine resolution is
not 250/500/1000 or the coarse resolution is not 1000/5000; an unsupported
5km coarse full width is accepted by the constructor, and the error for it
is raised only later, during interpolation, inside the 5km fine-coordinate
generation (as a NotImplementedError). -/
theorem c1_config_errors (cres fres : ℕ) (w : Option ℕ)
    (tc : ℝ → ℝ → ℝ × ℝ × ℝ) (fc : ℝ → ℝ → ℝ → ℝ × ℝ) (lon lat satz : Arr2 ℝ) :
    (exceptIsOk (ModisInterpolator.init cres fres w) = false ↔
      ¬(fres = 250 ∨ fres = 500 ∨ fres = 1000) ∨ ¬(cres = 1000 ∨ cres = 5000))
    ∧ (∀ g : ScanGeometry, ModisInterpolator.init 5000 fres w = .ok g →
        g.cscan_full_width ≠ 270 → g.cscan_full_width ≠ 271 →
        ModisInterpolator.interpolate tc fc g lon lat satz =
          .error (.notImplementedError fiveKmErrMsg)) := by
  constructor
  · unfold ModisInterpolator.init f_factor_of exceptIsOk
    split_ifs <;> simp_all
  · intro g hg h270 h271
    have h0 : fres ≠ 0 := by
      intro h; subst h; simp [ModisInterpolator.init] at hg
    rcases hf : f_factor_of fres with _ | f
    · simp [ModisInterpolator.init, h0, hf] at hg
    · simp [ModisInterpolator.init, h0, hf] at hg
      subst hg
      simp [ModisInterpolator.interpolate, _interpolate, get_coords_dispatch,
        _get_coords_5km, h270, h271] at h270 h271 ⊢

/-- C1 witness: concrete instantiation at cres 5000, fres 1000, width 269;
construction succeeds and interpolation raises the NotImplementedError. -/
theorem c1_config_errors_witness :
    ModisInterpolator.init 5000 1000 (some 269) =
      .ok { cres := 5000, cscan_len := 2, cscan_width := 5, cscan_full_width := 269,
            res_factor := 5, fscan_width := 5, fscan_full_width := 1354, fscan_len := 5 }
    ∧ ModisInterpolator.interpolate (fun a b => (a, b, a + b)) (fun a b c => (a + b, c))
        { cres := 5000, cscan_len := 2, cscan_width := 5, cscan_full_width := 269,
          res_factor := 5, fscan_width := 5, fscan_full_width := 1354, fscan_len := 5 }
        ⟨2, 269, fun _ _ => 0⟩ ⟨2, 269, fun _ _ => 0⟩ ⟨2, 269, fun _ _ => 0⟩ =
      .error (.notImplementedError fiveKmErrMsg) :=
  ⟨rfl,
   (c1_config_errors 5000 1000 (some 269) (fun a b => (a, b, a + b)) (fun a b c => (a + b, c))
      ⟨2, 269, fun _ _ => 0⟩ ⟨2, 269, fun _ _ => 0⟩ ⟨2, 269, fun _ _ => 0⟩).2
     _ rfl (by decide) (by decide)⟩

/-- C10: for coarse resolution 1000 the optional coarse-full-width argument
is ignored: the construction result is identical with and without it, the
coarse full width is always 1354, and the fine full width is always 1354
times the fine-resolution column multiplier. -/
theorem c10_1km_ignores_width (fres w : ℕ) :
    ModisInterpolator.init 1000 fres (some w) = ModisInterpolator.init 1000 fres none
    ∧ (∀ (g : ScanGeometry) (f : ℕ), f_factor_of fres = some f →
        ModisInterpolator.init 1000 fres (some w) = .ok g →
        g.cscan_full_width = 1354 ∧ g.fscan_full_width = 1354 * f) := by
  constructor
  · simp [ModisInterpolator.init]
  · intro g f hf hg
    have h0 : fres ≠ 0 := by
      intro h; subst h; simp [f_factor_of] at hf
    simp [ModisInterpolator.init, h0, hf] at hg
    subst hg
    exact ⟨rfl, rfl⟩

/-- C10 witness: fres 250 with ignored width 9999. -/
theorem c10_1km_ignores_width_witness :
    f_factor_of 250 = some 4
    ∧ ModisInterpolator.init 1000 250 (some 9999) =
        .ok { cres := 1000, cscan_len := 10, cscan_width := 1, cscan_full_width := 1354,
              res_factor := 4, fscan_width := 4, fscan_full_width := 5416, fscan_len := 4 }
    ∧ ({ cres := 1000, cscan_len := 10, cscan_width := 1, cscan_full_width := 1354,
         res_factor := 4, fscan_width := 4, fscan_full_width := 5416,
         fscan_len := 4 } : ScanGeometry).cscan_full_width = 1354
    ∧ ({ cres := 1000, cscan_len := 10, cscan_width := 1, cscan_full_width := 1354,
         res_factor := 4, fscan_width := 4, fscan_full_width := 5416,
         fscan_len := 4 } : ScanGeometry).fscan_full_width = 1354 * 4 := by
  refine ⟨rfl, rfl, ?_⟩
  exact (c10_1km_ignores_width 250 9999).2 _ 4 rfl rfl

/-- C9: the 5km-to-500m and 5km-to-250m entry points emit exactly the
degraded-quality warning and still return the interpolation result of the
interpolator they construct; the other three entry points emit no warning. -/
theorem c9_warnings (tc : ℝ → ℝ → ℝ × ℝ × ℝ) (fc : ℝ → ℝ → ℝ → ℝ × ℝ)
    (lon lat satz : Arr2 ℝ) :
    (modis_5km_to_500m tc fc lon lat satz).1 = [warn500Msg]
    ∧ (modis_5km_to_250m tc fc lon lat satz).1 = [warn250Msg]
    ∧ (modis_1km_to_250m tc fc lon lat satz).1 = []
    ∧ (modis_1km_to_500m tc fc lon lat satz).1 = []
    ∧ (modis_5km_to_1km tc fc lon lat satz).1 = []
    ∧ (modis_5km_to_500m tc fc lon lat satz).2 =
        ModisInterpolator.interpolate tc fc
          { cres := 5000, cscan_len := 2, cscan_width := 5, cscan_full_width := lon.d1,
            res_factor := 10, fscan_width := 10, fscan_full_width := 2708, fscan_len := 10 }
          lon lat satz
    ∧ (modis_5km_to_250m tc fc lon lat satz).2 =
        ModisInterpolator.interpolate tc fc
          { cres := 5000, cscan_len := 2, cscan_width := 5, cscan_full_width := lon.d1,
            res_factor := 20, fscan_width := 20, fscan_full_width := 5416, fscan_len := 20 }
          lon lat satz := by
  refine ⟨rfl, rfl, rfl, rfl, rfl, rfl, rfl⟩

/-- C2 counterexample: at equal zenith angles 0 (a valid quad: the
sub-satellite point), theta_a = 0, so the workaround denominator
theta_a * 2 is itself 0 and the divisions computing c_expansion and
c_alignment are divisions by zero (0/0, NaN in floating point, which is
not finite). -/
theorem c2_counterexample :
    compute_denominator 0 0 = 0 ∧ compute_theta 0 (compute_phi 0) = 0 := by
  constructor
  · simp [compute_denominator, compute_theta, compute_phi, Real.arcsin_zero]
  · simp [compute_theta, compute_phi, Real.arcsin_zero]

/-- C2 (amended): the denominator is theta_a - theta_b except when
theta_a = theta_b, in which case it is 2 * theta_a; for a quad whose two
equal zenith angles are positive (and at most pi/2), theta_a is positive,
so this denominator is nonzero and the divisions computing c_expansion and
c_alignment are well defined.  (At equal zenith angle exactly 0 the
denominator still vanishes; see the counterexample.) -/
theorem c2_equal_angles_denominator (z : ℝ) (h1 : 0 < z) (h2 : z ≤ Real.pi / 2) :
    compute_denominator z z = 2 * compute_theta z (compute_phi z)
    ∧ compute_denominator z z ≠ 0 := by
  have hthetapos : 0 < compute_theta z (compute_phi z) := by
    unfold compute_theta compute_phi
    have hpi : z < Real.pi := lt_of_le_of_lt h2 (by linarith [Real.pi_pos])
    have hs : 0 < Real.sin z := Real.sin_pos_of_pos_of_lt_pi h1 hpi
    have hR : (0:ℝ) < R := by unfold R; norm_num
    have hH : (0:ℝ) < H := by unfold H; norm_num
    have hRH : (0:ℝ) < R + H := by linarith
    have ha_lt : R * Real.sin z / (R + H) < Real.sin z := by
      rw [div_lt_iff₀ hRH]
      nlinarith [mul_pos hs hH]
    have ha_pos : 0 < R * Real.sin z / (R + H) := by positivity
    have hsin1 : Real.sin z ≤ 1 := Real.sin_le_one z
    have hmem1 : R * Real.sin z / (R + H) ∈ Set.Icc (-1:ℝ) 1 :=
      ⟨by linarith, by linarith⟩
    have hmem2 : Real.sin z ∈ Set.Icc (-1:ℝ) 1 := ⟨Real.neg_one_le_sin z, hsin1⟩
    have harc : Real.arcsin (R * Real.sin z / (R + H)) < Real.arcsin (Real.sin z) :=
      Real.strictMonoOn_arcsin hmem1 hmem2 ha_lt
    rw [Real.arcsin_sin (by linarith [Real.pi_pos]) h2] at harc
    linarith
  have hden : compute_denominator z z = compute_theta z (compute_phi z) * 2 := by
    simp [compute_denominator]
  exact ⟨by rw [hden]; ring, by rw [hden]; intro hc; linarith⟩

/-- C2 witness: equal zenith angles 1 radian. -/
theorem c2_equal_angles_denominator_witness :
    (0:ℝ) < 1 ∧ (1:ℝ) ≤ Real.pi / 2 ∧ compute_denominator 1 1 ≠ 0 :=
  ⟨by norm_num, by linarith [Real.pi_gt_three],
   (c2_equal_angles_denominator 1 (by norm_num) (by linarith [Real.pi_gt_three])).2⟩

/-- C4: the correction coefficients are exactly the stated closed forms
with R = 6371, H = 705, scanWidthKm = 10.00017, and they depend only on
the A and B corner zenith angles. -/
theorem c4_closed_forms (satz_a satz_b satz_c satz_d : ℝ) :
    (compute_expansion_alignment satz_a satz_b satz_c satz_d =
      (let phi_a := Real.arcsin (6371 * Real.sin satz_a / (6371 + 705))
       let phi_b := Real.arcsin (6371 * Real.sin satz_b / (6371 + 705))
       let theta_a := satz_a - phi_a
       let theta_b := satz_b - phi_b
       let phi_mid := (phi_a + phi_b) / 2
       let zeta_mid := Real.arcsin ((6371 + 705) * Real.sin phi_mid / 6371)
       let theta_mid := zeta_mid - phi_mid
       let denom := if theta_a = theta_b then 2 * theta_a else theta_a - theta_b
       let sinHalfBeta := (10.00017 : ℝ) / (2 * 705)
       let d := ((6371 + 705) / 6371 * Real.cos phi_mid - Real.cos zeta_mid) * sinHalfBeta
       let e := Real.cos zeta_mid - Real.sqrt (Real.cos zeta_mid ^ 2 - d ^ 2)
       (4 * ((theta_a + theta_b) / 2 - theta_mid) / denom,
        4 * e * Real.sin zeta_mid / denom)))
    ∧ ∀ c' d' : ℝ, compute_expansion_alignment satz_a satz_b c' d' =
        compute_expansion_alignment satz_a satz_b satz_c satz_d := by
  constructor
  · simp only [compute_expansion_alignment, compute_phi, compute_zeta, compute_theta,
      compute_denominator, R, H, scan_width]
    refine Prod.ext ?_ ?_ <;> simp only [] <;> split_ifs <;> ring
  · intro c' d'
    rfl

/-- C7: 5km fine-grid coordinates.  The row coordinate is the linear ramp
offset by -2 repeated per scan; the column coordinate cycles modulo the
tie spacing offset by -2, with explicit overrides at the first two columns
(-2, -1) and at the trailing columns: two overrides (5, 6) for coarse full
width 271, seven overrides (5..11) for 270; any other width is rejected. -/
theorem c7_coords_5km (cscan_len fscan_len fscan_width fscan_full_width scans : ℕ)
    (hffw : 9 ≤ fscan_full_width) :
    ((_get_coords_5km cscan_len 271 fscan_len fscan_width fscan_full_width scans).map
        (fun p => (p.1.len, p.2.len)) = .ok (fscan_full_width, fscan_len * cscan_len * scans))
    ∧ (∀ r : ℕ, (_get_coords_5km cscan_len 271 fscan_len fscan_width fscan_full_width scans).map
        (fun p => p.2.get r) = .ok (((r % (fscan_len * cscan_len) : ℕ) : ℝ) - 2))
    ∧ ((_get_coords_5km cscan_len 271 fscan_len fscan_width fscan_full_width scans).map
        (fun p => (p.1.get 0, p.1.get 1, p.1.get (fscan_full_width - 2),
          p.1.get (fscan_full_width - 1))) = .ok (-2, -1, 5, 6))
    ∧ (∀ j : ℕ, 2 ≤ j → j < fscan_full_width - 2 →
        (_get_coords_5km cscan_len 271 fscan_len fscan_width fscan_full_width scans).map
          (fun p => p.1.get j) = .ok ((((j : ℤ) - 2) % (fscan_width : ℤ) : ℤ) : ℝ))
    ∧ ((_get_coords_5km cscan_len 270 fscan_len fscan_width fscan_full_width scans).map
        (fun p => (p.1.len, p.2.len)) = .ok (fscan_full_width, fscan_len * cscan_len * scans))
    ∧ (∀ r : ℕ, (_get_coords_5km cscan_len 270 fscan_len fscan_width fscan_full_width scans).map
        (fun p => p.2.get r) = .ok (((r % (fscan_len * cscan_len) : ℕ) : ℝ) - 2))
    ∧ ((_get_coords_5km cscan_len 270 fscan_len fscan_width fscan_full_width scans).map
        (fun p => (p.1.get 0, p.1.get 1, p.1.get (fscan_full_width - 7),
          p.1.get (fscan_full_width - 6), p.1.get (fscan_full_width - 5),
          p.1.get (fscan_full_width - 4), p.1.get (fscan_full_width - 3),
          p.1.get (fscan_full_width - 2), p.1.get (fscan_full_width - 1)))
        = .ok (-2, -1, 5, 6, 7, 8, 9, 10, 11))
    ∧ (∀ j : ℕ, 2 ≤ j → j < fscan_full_width - 7 →
        (_get_coords_5km cscan_len 270 fscan_len fscan_width fscan_full_width scans).map
          (fun p => p.1.get j) = .ok ((((j : ℤ) - 2) % (fscan_width : ℤ) : ℤ) : ℝ))
    ∧ (∀ cfw : ℕ, cfw ≠ 270 → cfw ≠ 271 →
        exceptIsOk (_get_coords_5km cscan_len cfw fscan_len fscan_width fscan_full_width scans)
          = false) := by
  have h20 : fscan_full_width - 2 ≠ 0 := by omega
  have h21 : fscan_full_width - 2 ≠ 1 := by omega
  have h10 : fscan_full_width - 1 ≠ 0 := by omega
  have h11 : fscan_full_width - 1 ≠ 1 := by omega
  have h12 : fscan_full_width - 1 ≠ fscan_full_width - 2 := by omega
  refine ⟨?_, ?_, ?_, ?_, ?_, ?_, ?_, ?_, ?_⟩
  · simp [_get_coords_5km, Except.map]
  · intro r
    simp [_get_coords_5km, Except.map]
  · simp [_get_coords_5km, Except.map, h20, h21, h10, h11, h12]
  · intro j hj2 hjlt
    have hj0 : j ≠ 0 := by omega
    have hj1 : j ≠ 1 := by omega
    have hja : j ≠ fscan_full_width - 2 := by omega
    have hjb : j ≠ fscan_full_width - 1 := by omega
    simp [_get_coords_5km, Except.map, hj0, hj1, hja, hjb]
  · simp [_get_coords_5km, Except.map]
  · intro r
    simp [_get_coords_5km, Except.map]
  · have ha7 : fscan_full_width - 7 ≠ 0 := by omega
    have hb7 : fscan_full_width - 7 ≠ 1 := by omega
    have ha6 : fscan_full_width - 6 ≠ 0 := by omega
    have hb6 : fscan_full_width - 6 ≠ 1 := by omega
    have hc6 : fscan_full_width - 6 ≠ fscan_full_width - 7 := by omega
    have ha5 : fscan_full_width - 5 ≠ 0 := by omega
    have hb5 : fscan_full_width - 5 ≠ 1 := by omega
    have hc5 : fscan_full_width - 5 ≠ fscan_full_width - 7 := by omega
    have hd5 : fscan_full_width - 5 ≠ fscan_full_width - 6 := by omega
    have ha4 : fscan_full_width - 4 ≠ 0 := by omega
    have hb4 : fscan_full_width - 4 ≠ 1 := by omega
    have hc4 : fscan_full_width - 4 ≠ fscan_full_width - 7 := by omega
    have hd4 : fscan_full_width - 4 ≠ fscan_full_width - 6 := by omega
    have he4 : fscan_full_width - 4 ≠ fscan_full_width - 5 := by omega
    have ha3 : fscan_full_width - 3 ≠ 0 := by omega
    have hb3 : fscan_full_width - 3 ≠ 1 := by omega
    have hc3 : fscan_full_width - 3 ≠ fscan_full_width - 7 := by omega
    have hd3 : fscan_full_width - 3 ≠ fscan_full_width - 6 := by omega
    have he3 : fscan_full_width - 3 ≠ fscan_full_width - 5 := by omega
    have hf3 : fscan_full_width - 3 ≠ fscan_full_width - 4 := by omega
    have hc2 : fscan_full_width - 2 ≠ fscan_full_width - 7 := by omega
    have hd2 : fscan_full_width - 2 ≠ fscan_full_width - 6 := by omega
    have he2 : fscan_full_width - 2 ≠ fscan_full_width - 5 := by omega
    have hf2 : fscan_full_width - 2 ≠ fscan_full_width - 4 := by omega
    have hg2 : fscan_full_width - 2 ≠ fscan_full_width - 3 := by omega
    have hc1 : fscan_full_width - 1 ≠ fscan_full_width - 7 := by omega
    have hd1 : fscan_full_width - 1 ≠ fscan_full_width - 6 := by omega
    have he1 : fscan_full_width - 1 ≠ fscan_full_width - 5 := by omega
    have hf1 : fscan_full_width - 1 ≠ fscan_full_width - 4 := by omega
    have hg1 : fscan_full_width - 1 ≠ fscan_full_width - 3 := by omega
    simp [_get_coords_5km, Except.map, h20, h21, h10, h11, h12, ha7, hb7, ha6, hb6, hc6,
      ha5, hb5, hc5, hd5, ha4, hb4, hc4, hd4, he4, ha3, hb3, hc3, hd3, he3, hf3,
      hc2, hd2, he2, hf2, hg2, hc1, hd1, he1, hf1, hg1]
  · intro j hj2 hjlt
    have hj0 : j ≠ 0 := by omega
    have hj1 : j ≠ 1 := by omega
    have hja : j ≠ fscan_full_width - 7 := by omega
    have hjb : j ≠ fscan_full_width - 6 := by omega
    have hjc : j ≠ fscan_full_width - 5 := by omega
    have hjd : j ≠ fscan_full_width - 4 := by omega
    have hje : j ≠ fscan_full_width - 3 := by omega
    have hjf : j ≠ fscan_full_width - 2 := by omega
    have hjg : j ≠ fscan_full_width - 1 := by omega
    simp [_get_coords_5km, Except.map, hj0, hj1, hja, hjb, hjc, hjd, hje, hjf, hjg]
  · intro cfw hk1 hk2
    simp [_get_coords_5km, exceptIsOk, hk1, hk2]

/-- C7 witness: concrete 5km-to-1km geometry (interior column 7 of the
271-wide grid, and rejection of width 269). -/
theorem c7_coords_5km_witness :
    (9:ℕ) ≤ 1354 ∧ (2:ℕ) ≤ 7 ∧ (7:ℕ) < 1354 - 2
    ∧ (_get_coords_5km 2 271 5 5 1354 1).map (fun p => p.1.get 7)
        = .ok ((((7 : ℤ) - 2) % ((5 : ℕ) : ℤ) : ℤ) : ℝ)
    ∧ exceptIsOk (_get_coords_5km 2 269 5 5 1354 1) = false := by
  refine ⟨by norm_num, by norm_num, by norm_num, ?_, ?_⟩
  · exact (c7_coords_5km 2 5 5 1354 1 (by norm_num)).2.2.2.1 7 (by norm_num) (by norm_num)
  · exact (c7_coords_5km 2 5 5 1354 1 (by norm_num)).2.2.2.2.2.2.2.2 269
      (by norm_num) (by norm_num)

/-- C8: 1km fine-grid coordinates.  Within each scan of
cscan_len * fscan_len fine rows, the row coordinate is
-fscan_len/2+0.5 .. -0.5 on the first half-interval, cycles k % fscan_len
+ 0.5 in the interior, and continues fscan_len+0.5 .. on the last
half-interval; the column coordinate cycles 0 .. fscan_width-1 with the
final block extrapolated to fscan_width .. 2*fscan_width-1; and the
normalized coordinates used by the blend divide these by fscan_width and
fscan_len respectively. -/
theorem c8_coords_1km (cscan_len cscan_full_width fscan_len fscan_width fscan_full_width
      scans : ℕ)
    (hfl2 : 2 ≤ fscan_len) (hfleven : fscan_len % 2 = 0) (hcl : 1 ≤ cscan_len) :
    ((_get_coords_1km cscan_len cscan_full_width fscan_len fscan_width fscan_full_width
        scans).2.len = cscan_len * fscan_len * scans)
    ∧ (∀ r : ℕ, r % (cscan_len * fscan_len) < fscan_len / 2 →
        (_get_coords_1km cscan_len cscan_full_width fscan_len fscan_width fscan_full_width
          scans).2.get r
          = -(fscan_len : ℝ) / 2 + 1 / 2 + ((r % (cscan_len * fscan_len) : ℕ) : ℝ))
    ∧ (∀ r : ℕ, fscan_len / 2 ≤ r % (cscan_len * fscan_len) →
        r % (cscan_len * fscan_len) < cscan_len * fscan_len - fscan_len / 2 →
        (_get_coords_1km cscan_len cscan_full_width fscan_len fscan_width fscan_full_width
          scans).2.get r
          = (((r % (cscan_len * fscan_len) + fscan_len / 2) % fscan_len : ℕ) : ℝ) + 1 / 2)
    ∧ (∀ r : ℕ, cscan_len * fscan_len - fscan_len / 2 ≤ r % (cscan_len * fscan_len) →
        (_get_coords_1km cscan_len cscan_full_width fscan_len fscan_width fscan_full_width
          scans).2.get r
          = (fscan_len : ℝ) + 1 / 2
            + ((r % (cscan_len * fscan_len) - (cscan_len * fscan_len - fscan_len / 2) : ℕ) : ℝ))
    ∧ ((_get_coords_1km cscan_len cscan_full_width fscan_len fscan_width fscan_full_width
        scans).1.len = fscan_full_width)
    ∧ (∀ j : ℕ, j < fscan_full_width - fscan_width →
        (_get_coords_1km cscan_len cscan_full_width fscan_len fscan_width fscan_full_width
          scans).1.get j = ((j % fscan_width : ℕ) : ℝ))
    ∧ (∀ j : ℕ, fscan_full_width - fscan_width ≤ j →
        (_get_coords_1km cscan_len cscan_full_width fscan_len fscan_width fscan_full_width
          scans).1.get j
          = (fscan_width : ℝ) + ((j - (fscan_full_width - fscan_width) : ℕ) : ℝ))
    ∧ (∀ (x y : Arr1 ℝ) (rr cc : ℕ),
        (s_arrays x y fscan_width fscan_len).1.get rr cc = x.get cc / (fscan_width : ℝ)
        ∧ (s_arrays x y fscan_width fscan_len).2.get rr cc = y.get rr / (fscan_len : ℝ)) := by
  have hh0 : fscan_len / 2 ≠ 0 := by omega
  have hylen : (if fscan_len / 2 = 0 then 0
      else (cscan_len + 1) * fscan_len - 2 * (fscan_len / 2)) = cscan_len * fscan_len := by
    rw [if_neg hh0]
    have h2 : 2 * (fscan_len / 2) = fscan_len := by omega
    rw [h2, Nat.add_mul, Nat.one_mul, Nat.add_sub_cancel]
  refine ⟨?_, ?_, ?_, ?_, ?_, ?_, ?_, ?_⟩
  · simp only [_get_coords_1km, hylen]
  · intro r hr
    simp only [_get_coords_1km, hylen]
    rw [if_pos hr]
  · intro r h1 h2
    simp only [_get_coords_1km, hylen]
    rw [if_neg (by omega), if_neg (by omega)]
  · intro r h1
    have hcl2 : fscan_len ≤ cscan_len * fscan_len := Nat.le_mul_of_pos_left _ hcl
    simp only [_get_coords_1km, hylen]
    rw [if_neg (by omega), if_pos h1]
  · simp only [_get_coords_1km]
  · intro j hj
    simp only [_get_coords_1km]
    rw [if_neg (by omega)]
  · intro j hj
    simp only [_get_coords_1km]
    rw [if_pos hj]
  · intro x y rr cc
    constructor <;> simp [s_arrays, meshgrid]

/-- C8 witness: concrete 1km-to-250m geometry, second fine row (inside the
extrapolated first half-interval) and the normalization identities. -/
theorem c8_coords_1km_witness :
    (2:ℕ) ≤ 4 ∧ (4:ℕ) % 2 = 0 ∧ (1:ℕ) ≤ 10
    ∧ 1 % (10 * 4) < 4 / 2
    ∧ (_get_coords_1km 10 1354 4 4 5416 1).2.get 1
        = -(4 : ℝ) / 2 + 1 / 2 + ((1 % (10 * 4) : ℕ) : ℝ) := by
  refine ⟨by norm_num, by norm_num, by norm_num, by norm_num, ?_⟩
  exact (c8_coords_1km 10 1354 4 4 5416 1 (by norm_num) (by norm_num) (by norm_num)).2.1 1
    (by norm_num)

theorem Arr2.hstack_takeLastCols_get {α : Type} (A : Arr2 α) (k : ℕ) (hk : k ≠ 0)
    (hkle : k ≤ A.d1) (r c : ℕ) (hc : c < A.d1 + k) :
    ∃ c', c' < A.d1 ∧ (A.hstack (A.takeLastCols k)).get r c = A.get r c' := by
  rw [Arr2.hstack_get]
  by_cases h : c < A.d1
  · rw [if_pos h]
    exact ⟨c, h, rfl⟩
  · rw [if_neg h, Arr2.takeLastCols_get _ _ hk]
    exact ⟨A.d1 - min k A.d1 + (c - A.d1), by omega, rfl⟩

theorem reshape_repeat_dims {α : Type} (a2 : Arr3 α) (m cols : ℕ) (hm : a2.d2 = m)
    (hmpos : 0 < m) :
    ((a2.reshapeTo2 m).repeatCols cols).d0 = a2.d0 * a2.d1
    ∧ ((a2.reshapeTo2 m).repeatCols cols).d1 = m * cols := by
  constructor
  · show a2.d0 * a2.d1 * a2.d2 / m = a2.d0 * a2.d1
    rw [hm, Nat.mul_div_cancel _ hmpos]
  · rfl

theorem reshape_repeat_get {α : Type} (a2 : Arr3 α) (m cols : ℕ)
    (hm : a2.d2 = m) (hmpos : 0 < m) (hcols : 0 < cols) (r c : ℕ)
    (hc : c < m * cols) :
    ((a2.reshapeTo2 m).repeatCols cols).get r c
      = a2.get (r / a2.d1) (r % a2.d1) (c / cols)
    ∧ c / cols < m := by
  have hcm : c / cols < m := (Nat.div_lt_iff_lt_mul hcols).2 hc
  refine ⟨?_, hcm⟩
  rw [Arr2.repeatCols_get]
  exact Arr3.reshapeTo2_get_eq a2 m r (c / cols) hm (by omega) (by omega)

theorem concat_pad_get {α : Type} (a1 : Arr3 α) (k : ℕ) (hk : k ≠ 0) (hkle : k ≤ a1.d1)
    (s p j : ℕ) (hp : p < k + a1.d1 + k) :
    ∃ q, q < a1.d1 ∧
      (Arr3.concat3Axis1 (a1.takeRows k) a1 (a1.takeLastRows k)).get s p j = a1.get s q j := by
  have hmin : min k a1.d1 = k := by omega
  rw [Arr3.concat3Axis1_get]
  simp only [Arr3.takeRows_d1, Arr3.takeRows_get, hmin]
  by_cases h1 : p < k
  · rw [if_pos h1]
    exact ⟨p, by omega, rfl⟩
  · rw [if_neg h1]
    by_cases h2 : p < k + a1.d1
    · rw [if_pos h2]
      exact ⟨p - k, by omega, rfl⟩
    · rw [if_neg h2, Arr3.takeLastRows_get _ _ hk]
      exact ⟨a1.d1 - min k a1.d1 + (p - k - a1.d1), by omega, rfl⟩


theorem expand1km_spec (cw cfw fw : ℕ) (arr : Arr3 ℝ) (f cols : ℕ)
    (hf : 2 ≤ f) (heven : f % 2 = 0) (hcols : 1 ≤ cols)
    (hd1 : 1 ≤ arr.d1) (hd2 : arr.d2 = cfw - 1) (hcfw : 2 ≤ cfw) :
    (_expand_tiepoint_array_1km cw cfw fw arr f cols).d0 = arr.d0 * (arr.d1 * f + f)
    ∧ (_expand_tiepoint_array_1km cw cfw fw arr f cols).d1 = (cfw - 1) * cols + cols
    ∧ ∀ r c : ℕ, r < arr.d0 * (arr.d1 * f + f) → c < (cfw - 1) * cols + cols →
        ∃ s i j, s < arr.d0 ∧ i < arr.d1 ∧ j < arr.d2 ∧
          (_expand_tiepoint_array_1km cw cfw fw arr f cols).get r c = arr.get s i j := by
  have hk0 : f / 2 ≠ 0 := by omega
  have hfpos : 0 < f := by omega
  have hd1f : f ≤ arr.d1 * f := Nat.le_mul_of_pos_left f hd1
  have hkle : f / 2 ≤ (arr.repeatAxis1 f).d1 := by
    rw [Arr3.repeatAxis1_d1]; omega
  have hcfw1 : 0 < cfw - 1 := by omega
  have hcolsle : cols ≤ (cfw - 1) * cols := Nat.le_mul_of_pos_left cols hcfw1
  have ha2d2 : (Arr3.concat3Axis1 ((arr.repeatAxis1 f).takeRows (f / 2)) (arr.repeatAxis1 f)
      ((arr.repeatAxis1 f).takeLastRows (f / 2))).d2 = cfw - 1 := hd2
  have ha2d1 : (Arr3.concat3Axis1 ((arr.repeatAxis1 f).takeRows (f / 2)) (arr.repeatAxis1 f)
      ((arr.repeatAxis1 f).takeLastRows (f / 2))).d1 = arr.d1 * f + f := by
    rw [Arr3.concat3Axis1_d1, Arr3.takeRows_d1, Arr3.takeLastRows_d1 _ _ hk0,
      Arr3.repeatAxis1_d1]
    have hmin : min (f / 2) (arr.d1 * f) = f / 2 := by omega
    omega
  obtain ⟨hA0, hA1⟩ := reshape_repeat_dims (Arr3.concat3Axis1
    ((arr.repeatAxis1 f).takeRows (f / 2)) (arr.repeatAxis1 f)
    ((arr.repeatAxis1 f).takeLastRows (f / 2))) (cfw - 1) cols ha2d2 hcfw1
  have hfun : _expand_tiepoint_array_1km cw cfw fw arr f cols
      = (((Arr3.concat3Axis1 ((arr.repeatAxis1 f).takeRows (f / 2)) (arr.repeatAxis1 f)
          ((arr.repeatAxis1 f).takeLastRows (f / 2))).reshapeTo2 (cfw - 1)).repeatCols
          cols).hstack
        ((((Arr3.concat3Axis1 ((arr.repeatAxis1 f).takeRows (f / 2)) (arr.repeatAxis1 f)
          ((arr.repeatAxis1 f).takeLastRows (f / 2))).reshapeTo2 (cfw - 1)).repeatCols
          cols).takeLastCols cols) := rfl
  rw [hfun]
  refine ⟨?_, ?_, ?_⟩
  · rw [Arr2.hstack_d0, hA0, ha2d1]
    rfl
  · rw [Arr2.hstack_d1, Arr2.takeLastCols_d1 _ _ (by omega), hA1]
    congr 1
    omega
  · intro r c hr hc
    obtain ⟨c', hc', hget1⟩ := Arr2.hstack_takeLastCols_get
      (((Arr3.concat3Axis1 ((arr.repeatAxis1 f).takeRows (f / 2)) (arr.repeatAxis1 f)
        ((arr.repeatAxis1 f).takeLastRows (f / 2))).reshapeTo2 (cfw - 1)).repeatCols cols)
      cols (by omega) (by rw [hA1]; exact hcolsle) r c (by rw [hA1]; omega)
    rw [hA1] at hc'
    obtain ⟨hget2, hcm⟩ := reshape_repeat_get (Arr3.concat3Axis1
      ((arr.repeatAxis1 f).takeRows (f / 2)) (arr.repeatAxis1 f)
      ((arr.repeatAxis1 f).takeLastRows (f / 2))) (cfw - 1) cols ha2d2 hcfw1 (by omega) r c' hc'
    rw [ha2d1] at hget2
    have hp : r % (arr.d1 * f + f) < f / 2 + (arr.repeatAxis1 f).d1 + f / 2 := by
      rw [Arr3.repeatAxis1_d1]
      have := Nat.mod_lt r (y := arr.d1 * f + f) (by omega)
      omega
    obtain ⟨q, hq, hget3⟩ := concat_pad_get (arr.repeatAxis1 f) (f / 2) hk0 hkle
      (r / (arr.d1 * f + f)) (r % (arr.d1 * f + f)) (c' / cols) hp
    rw [Arr3.repeatAxis1_d1] at hq
    refine ⟨r / (arr.d1 * f + f), q / f, c' / cols, ?_, ?_, ?_, ?_⟩
    · exact (Nat.div_lt_iff_lt_mul (by omega)).2 (by omega)
    · exact (Nat.div_lt_iff_lt_mul hfpos).2 hq
    · omega
    · rw [hget1, hget2, hget3]
      rfl

theorem expand5km_spec (cw cfw fw : ℕ) (arr : Arr3 ℝ) (lines cols : ℕ)
    (hcols : 1 ≤ cols) (hlines : 1 ≤ lines)
    (hd1 : 1 ≤ arr.d1) (hd2 : arr.d2 = cfw - 1) (hcfw : 2 ≤ cfw)
    (hfac : 1 ≤ fw / cw) (h2fac : 2 * (fw / cw) ≤ (cfw - 1) * cols)
    (hfw : 1 ≤ fw) (hfwle : fw ≤ (cfw - 1) * cols) :
    (_expand_tiepoint_array_5km cw cfw fw arr lines cols).d0 = arr.d0 * (arr.d1 * (lines * 2))
    ∧ (_expand_tiepoint_array_5km cw cfw fw arr lines cols).d1
        = 2 * (fw / cw) + (cfw - 1) * cols + (if cfw = 271 then 0 else fw) + 2 * (fw / cw)
    ∧ ∀ r c : ℕ, r < arr.d0 * (arr.d1 * (lines * 2)) →
        c < 2 * (fw / cw) + (cfw - 1) * cols + (if cfw = 271 then 0 else fw) + 2 * (fw / cw) →
        ∃ s i j, s < arr.d0 ∧ i < arr.d1 ∧ j < arr.d2 ∧
          (_expand_tiepoint_array_5km cw cfw fw arr lines cols).get r c = arr.get s i j := by
  have hcfw1 : 0 < cfw - 1 := by omega
  have hm0 : (2 : ℕ) * (fw / cw) ≠ 0 := by omega
  have hfw0 : fw ≠ 0 := by omega
  have hl2 : 0 < lines * 2 := by omega
  have ha1d2 : (arr.repeatAxis1 (lines * 2)).d2 = cfw - 1 := hd2
  obtain ⟨hA0, hA1⟩ := reshape_repeat_dims (arr.repeatAxis1 (lines * 2)) (cfw - 1) cols
    ha1d2 hcfw1
  have hA0d : (((arr.repeatAxis1 (lines * 2)).reshapeTo2 (cfw - 1)).repeatCols cols).d0
      = arr.d0 * (arr.d1 * (lines * 2)) := by
    rw [hA0]
    rfl
  have hAget : ∀ r c : ℕ, r < arr.d0 * (arr.d1 * (lines * 2)) → c < (cfw - 1) * cols →
      ∃ s i j, s < arr.d0 ∧ i < arr.d1 ∧ j < arr.d2 ∧
        (((arr.repeatAxis1 (lines * 2)).reshapeTo2 (cfw - 1)).repeatCols cols).get r c
          = arr.get s i j := by
    intro r c hr hcx
    obtain ⟨hget, hcm⟩ := reshape_repeat_get (arr.repeatAxis1 (lines * 2)) (cfw - 1) cols
      ha1d2 hcfw1 (by omega) r c hcx
    rw [Arr3.repeatAxis1_d1] at hget
    have hmodlt : r % (arr.d1 * (lines * 2)) < arr.d1 * (lines * 2) :=
      Nat.mod_lt _ (by positivity)
    refine ⟨r / (arr.d1 * (lines * 2)), r % (arr.d1 * (lines * 2)) / (lines * 2), c / cols,
      (Nat.div_lt_iff_lt_mul (by positivity)).2 (by omega),
      (Nat.div_lt_iff_lt_mul hl2).2 (by omega), by omega, by rw [hget]; rfl⟩
  by_cases h271 : cfw = 271
  · have hfun : _expand_tiepoint_array_5km cw cfw fw arr lines cols
        = ((((arr.repeatAxis1 (lines * 2)).reshapeTo2 (cfw - 1)).repeatCols cols).takeCols
            (2 * (fw / cw))).hstack
          ((((arr.repeatAxis1 (lines * 2)).reshapeTo2 (cfw - 1)).repeatCols cols).hstack
            ((((arr.repeatAxis1 (lines * 2)).reshapeTo2 (cfw - 1)).repeatCols
              cols).takeLastCols (2 * (fw / cw)))) := by
      simp only [_expand_tiepoint_array_5km, if_pos h271]
    rw [hfun, if_pos h271]
    refine ⟨hA0d, ?_, ?_⟩
    · rw [Arr2.hstack_d1, Arr2.takeCols_d1, Arr2.hstack_d1, Arr2.takeLastCols_d1 _ _ hm0, hA1]
      omega
    · intro r c hr hc
      have hout : ∃ c'', c'' < (cfw - 1) * cols ∧
          (((((arr.repeatAxis1 (lines * 2)).reshapeTo2 (cfw - 1)).repeatCols cols).takeCols
            (2 * (fw / cw))).hstack
            ((((arr.repeatAxis1 (lines * 2)).reshapeTo2 (cfw - 1)).repeatCols cols).hstack
              ((((arr.repeatAxis1 (lines * 2)).reshapeTo2 (cfw - 1)).repeatCols
                cols).takeLastCols (2 * (fw / cw))))).get r c
            = (((arr.repeatAxis1 (lines * 2)).reshapeTo2 (cfw - 1)).repeatCols cols).get
                r c'' := by
        rw [Arr2.hstack_get, Arr2.takeCols_d1, hA1]
        by_cases hb1 : c < min (2 * (fw / cw)) ((cfw - 1) * cols)
        · rw [if_pos hb1, Arr2.takeCols_get]
          exact ⟨c, by omega, rfl⟩
        · rw [if_neg hb1, Arr2.hstack_get, hA1]
          by_cases hb2 : c - min (2 * (fw / cw)) ((cfw - 1) * cols) < (cfw - 1) * cols
          · rw [if_pos hb2]
            exact ⟨c - min (2 * (fw / cw)) ((cfw - 1) * cols), hb2, rfl⟩
          · rw [if_neg hb2, Arr2.takeLastCols_get _ _ hm0, hA1]
            refine ⟨(cfw - 1) * cols - min (2 * (fw / cw)) ((cfw - 1) * cols)
              + (c - min (2 * (fw / cw)) ((cfw - 1) * cols) - (cfw - 1) * cols), ?_, rfl⟩
            omega
      obtain ⟨c'', hcc, hgetc⟩ := hout
      obtain ⟨s, i, j, hs, hi, hj, harr⟩ := hAget r c'' hr hcc
      exact ⟨s, i, j, hs, hi, hj, by rw [hgetc, harr]⟩
  · have hfun : _expand_tiepoint_array_5km cw cfw fw arr lines cols
        = ((((arr.repeatAxis1 (lines * 2)).reshapeTo2 (cfw - 1)).repeatCols cols).takeCols
            (2 * (fw / cw))).hstack
          (((((arr.repeatAxis1 (lines * 2)).reshapeTo2 (cfw - 1)).repeatCols cols).hstack
              ((((arr.repeatAxis1 (lines * 2)).reshapeTo2 (cfw - 1)).repeatCols
                cols).takeLastCols fw)).hstack
            ((((arr.repeatAxis1 (lines * 2)).reshapeTo2 (cfw - 1)).repeatCols
              cols).takeLastCols (2 * (fw / cw)))) := by
      simp only [_expand_tiepoint_array_5km, if_neg h271]
    rw [hfun, if_neg h271]
    refine ⟨hA0d, ?_, ?_⟩
    · rw [Arr2.hstack_d1, Arr2.takeCols_d1, Arr2.hstack_d1, Arr2.hstack_d1,
        Arr2.takeLastCols_d1 _ _ hfw0, Arr2.takeLastCols_d1 _ _ hm0, hA1]
      omega
    · intro r c hr hc
      have hout : ∃ c'', c'' < (cfw - 1) * cols ∧
          (((((arr.repeatAxis1 (lines * 2)).reshapeTo2 (cfw - 1)).repeatCols cols).takeCols
            (2 * (fw / cw))).hstack
            (((((arr.repeatAxis1 (lines * 2)).reshapeTo2 (cfw - 1)).repeatCols cols).hstack
                ((((arr.repeatAxis1 (lines * 2)).reshapeTo2 (cfw - 1)).repeatCols
                  cols).takeLastCols fw)).hstack
              ((((arr.repeatAxis1 (lines * 2)).reshapeTo2 (cfw - 1)).repeatCols
                cols).takeLastCols (2 * (fw / cw))))).get r c
            = (((arr.repeatAxis1 (lines * 2)).reshapeTo2 (cfw - 1)).repeatCols cols).get
                r c'' := by
        rw [Arr2.hstack_get, Arr2.takeCols_d1, hA1]
        by_cases hb1 : c < min (2 * (fw / cw)) ((cfw - 1) * cols)
        · rw [if_pos hb1, Arr2.takeCols_get]
          exact ⟨c, by omega, rfl⟩
        · rw [if_neg hb1, Arr2.hstack_get, Arr2.hstack_d1,
            Arr2.takeLastCols_d1 _ _ hfw0, hA1]
          by_cases hb2 : c - min (2 * (fw / cw)) ((cfw - 1) * cols)
              < (cfw - 1) * cols + min fw ((cfw - 1) * cols)
          · rw [if_pos hb2, Arr2.hstack_get, hA1]
            by_cases hb3 : c - min (2 * (fw / cw)) ((cfw - 1) * cols) < (cfw - 1) * cols
            · rw [if_pos hb3]
              exact ⟨c - min (2 * (fw / cw)) ((cfw - 1) * cols), hb3, rfl⟩
            · rw [if_neg hb3, Arr2.takeLastCols_get _ _ hfw0, hA1]
              refine ⟨(cfw - 1) * cols - min fw ((cfw - 1) * cols)
                + (c - min (2 * (fw / cw)) ((cfw - 1) * cols) - (cfw - 1) * cols), ?_, rfl⟩
              omega
          · rw [if_neg hb2, Arr2.takeLastCols_get _ _ hm0, hA1]
            refine ⟨(cfw - 1) * cols - min (2 * (fw / cw)) ((cfw - 1) * cols)
              + (c - min (2 * (fw / cw)) ((cfw - 1) * cols)
                - ((cfw - 1) * cols + min fw ((cfw - 1) * cols))), ?_, rfl⟩
            omega
      obtain ⟨c'', hcc, hgetc⟩ := hout
      obtain ⟨s, i, j, hs, hi, hj, harr⟩ := hAget r c'' hr hcc
      exact ⟨s, i, j, hs, hi, hj, by rw [hgetc, harr]⟩

/-- C6: for every supported configuration (1km family to 250m/500m; 5km
family to 250m/500m/1km with coarse full width 270 or 271), tiepoint
expansion of a corner-shaped array produces an array of shape
[scanCount * fineRowsPerScan, fineFullWidth] whose every entry is a copy
of an input entry (pure replication, no rounding); for the 5km family the
width decomposes as edge blocks of 2 * (fscan_width / cscan_width)
columns around the replicated interior, with an extra interior block of
fscan_width columns exactly when the coarse full width is not 271. -/
theorem c6_expand (cres fres : ℕ) (w : Option ℕ) (g : ScanGeometry)
    (hg : ModisInterpolator.init cres fres w = .ok g)
    (hpair : (cres = 1000 ∧ (fres = 250 ∨ fres = 500))
      ∨ (cres = 5000 ∧ (fres = 250 ∨ fres = 500 ∨ fres = 1000)
          ∧ (w.getD 271 = 270 ∨ w.getD 271 = 271)))
    (arr : Arr3 ℝ) (scans : ℕ)
    (ha0 : arr.d0 = scans) (ha1 : arr.d1 = g.cscan_len - 1)
    (ha2 : arr.d2 = g.cscan_full_width - 1) :
    ((expand_tiepoint_dispatch cres g.cscan_width g.cscan_full_width g.fscan_width arr
        g.fscan_len g.fscan_width).d0 = scans * (g.cscan_len * g.res_factor)
      ∧ (expand_tiepoint_dispatch cres g.cscan_width g.cscan_full_width g.fscan_width arr
        g.fscan_len g.fscan_width).d1 = g.fscan_full_width)
    ∧ (∀ r c : ℕ,
        r < scans * (g.cscan_len * g.res_factor) → c < g.fscan_full_width →
        ∃ s i j, s < arr.d0 ∧ i < arr.d1 ∧ j < arr.d2 ∧
          (expand_tiepoint_dispatch cres g.cscan_width g.cscan_full_width g.fscan_width arr
            g.fscan_len g.fscan_width).get r c = arr.get s i j)
    ∧ (cres = 5000 →
        (expand_tiepoint_dispatch cres g.cscan_width g.cscan_full_width g.fscan_width arr
          g.fscan_len g.fscan_width).d1
          = 2 * (g.fscan_width / g.cscan_width) + (g.cscan_full_width - 1) * g.fscan_width
            + (if g.cscan_full_width = 271 then 0 else g.fscan_width)
            + 2 * (g.fscan_width / g.cscan_width)) := by
  rcases hpair with ⟨rfl, hf⟩ | ⟨rfl, hf, hw⟩
  · rcases hf with rfl | rfl
    · simp [ModisInterpolator.init, f_factor_of] at hg
      subst hg
      have ha1x : arr.d1 = 9 := ha1
      have ha2x : arr.d2 = 1353 := ha2
      obtain ⟨hd0x, hd1x, hrep⟩ := expand1km_spec 1 1354 4 arr 4 4 (by norm_num)
        (by norm_num) (by norm_num) (by omega) (by omega) (by norm_num)
      refine ⟨⟨?_, ?_⟩, ?_, ?_⟩
      · show (_expand_tiepoint_array_1km 1 1354 4 arr 4 4).d0 = scans * (10 * 4)
        rw [hd0x, ha0, ha1x]
      · show (_expand_tiepoint_array_1km 1 1354 4 arr 4 4).d1 = 5416
        rw [hd1x]
      · intro r c hr hc
        norm_num at hr hc
        exact hrep r c (by rw [ha0, ha1x]; omega) (by omega)
      · intro h
        exact absurd h (by norm_num)
    · simp [ModisInterpolator.init, f_factor_of] at hg
      subst hg
      have ha1x : arr.d1 = 9 := ha1
      have ha2x : arr.d2 = 1353 := ha2
      obtain ⟨hd0x, hd1x, hrep⟩ := expand1km_spec 1 1354 2 arr 2 2 (by norm_num)
        (by norm_num) (by norm_num) (by omega) (by omega) (by norm_num)
      refine ⟨⟨?_, ?_⟩, ?_, ?_⟩
      · show (_expand_tiepoint_array_1km 1 1354 2 arr 2 2).d0 = scans * (10 * 2)
        rw [hd0x, ha0, ha1x]
      · show (_expand_tiepoint_array_1km 1 1354 2 arr 2 2).d1 = 2708
        rw [hd1x]
      · intro r c hr hc
        norm_num at hr hc
        exact hrep r c (by rw [ha0, ha1x]; omega) (by omega)
      · intro h
        exact absurd h (by norm_num)
  · rcases hf with rfl | rfl | rfl <;>
      (simp [ModisInterpolator.init, f_factor_of] at hg; subst hg;
       rcases hw with hw | hw <;> rw [hw] at ha2 ⊢) <;>
      [skip; skip; skip; skip; skip; skip]
    · have ha1x : arr.d1 = 1 := ha1
      have ha2x : arr.d2 = 269 := ha2
      obtain ⟨hd0x, hd1x, hrep⟩ := expand5km_spec 5 270 20 arr 20 20 (by norm_num)
        (by norm_num) (by omega) (by omega) (by norm_num) (by norm_num) (by norm_num)
        (by norm_num) (by norm_num)
      refine ⟨⟨?_, ?_⟩, ?_, ?_⟩
      · show (_expand_tiepoint_array_5km 5 270 20 arr 20 20).d0 = scans * (2 * 20)
        rw [hd0x, ha0, ha1x]
      · show (_expand_tiepoint_array_5km 5 270 20 arr 20 20).d1 = 5416
        rw [hd1x]
        norm_num
      · intro r c hr hc
        norm_num at hr hc
        refine hrep r c (by rw [ha0, ha1x]; omega) ?_
        rw [show (2 * (20 / 5) + (270 - 1) * 20 + (if (270:ℕ) = 271 then 0 else 20)
          + 2 * (20 / 5) : ℕ) = 5416 from by norm_num]
        omega
      · intro _
        exact hd1x
    · have ha1x : arr.d1 = 1 := ha1
      have ha2x : arr.d2 = 270 := ha2
      obtain ⟨hd0x, hd1x, hrep⟩ := expand5km_spec 5 271 20 arr 20 20 (by norm_num)
        (by norm_num) (by omega) (by omega) (by norm_num) (by norm_num) (by norm_num)
        (by norm_num) (by norm_num)
      refine ⟨⟨?_, ?_⟩, ?_, ?_⟩
      · show (_expand_tiepoint_array_5km 5 271 20 arr 20 20).d0 = scans * (2 * 20)
        rw [hd0x, ha0, ha1x]
      · show (_expand_tiepoint_array_5km 5 271 20 arr 20 20).d1 = 5416
        rw [hd1x]
        norm_num
      · intro r c hr hc
        norm_num at hr hc
        refine hrep r c (by rw [ha0, ha1x]; omega) ?_
        rw [show (2 * (20 / 5) + (271 - 1) * 20 + (if (271:ℕ) = 271 then 0 else 20)
          + 2 * (20 / 5) : ℕ) = 5416 from by norm_num]
        omega
      · intro _
        exact hd1x
    · have ha1x : arr.d1 = 1 := ha1
      have ha2x : arr.d2 = 269 := ha2
      obtain ⟨hd0x, hd1x, hrep⟩ := expand5km_spec 5 270 10 arr 10 10 (by norm_num)
        (by norm_num) (by omega) (by omega) (by norm_num) (by norm_num) (by norm_num)
        (by norm_num) (by norm_num)
      refine ⟨⟨?_, ?_⟩, ?_, ?_⟩
      · show (_expand_tiepoint_array_5km 5 270 10 arr 10 10).d0 = scans * (2 * 10)
        rw [hd0x, ha0, ha1x]
      · show (_expand_tiepoint_array_5km 5 270 10 arr 10 10).d1 = 2708
        rw [hd1x]
        norm_num
      · intro r c hr hc
        norm_num at hr hc
        refine hrep r c (by rw [ha0, ha1x]; omega) ?_
        rw [show (2 * (10 / 5) + (270 - 1) * 10 + (if (270:ℕ) = 271 then 0 else 10)
          + 2 * (10 / 5) : ℕ) = 2708 from by norm_num]
        omega
      · intro _
        exact hd1x
    · have ha1x : arr.d1 = 1 := ha1
      have ha2x : arr.d2 = 270 := ha2
      obtain ⟨hd0x, hd1x, hrep⟩ := expand5km_spec 5 271 10 arr 10 10 (by norm_num)
        (by norm_num) (by omega) (by omega) (by norm_num) (by norm_num) (by norm_num)
        (by norm_num) (by norm_num)
      refine ⟨⟨?_, ?_⟩, ?_, ?_⟩
      · show (_expand_tiepoint_array_5km 5 271 10 arr 10 10).d0 = scans * (2 * 10)
        rw [hd0x, ha0, ha1x]
      · show (_expand_tiepoint_array_5km 5 271 10 arr 10 10).d1 = 2708
        rw [hd1x]
        norm_num
      · intro r c hr hc
        norm_num at hr hc
        refine hrep r c (by rw [ha0, ha1x]; omega) ?_
        rw [show (2 * (10 / 5) + (271 - 1) * 10 + (if (271:ℕ) = 271 then 0 else 10)
          + 2 * (10 / 5) : ℕ) = 2708 from by norm_num]
        omega
      · intro _
        exact hd1x
    · have ha1x : arr.d1 = 1 := ha1
      have ha2x : arr.d2 = 269 := ha2
      obtain ⟨hd0x, hd1x, hrep⟩ := expand5km_spec 5 270 5 arr 5 5 (by norm_num)
        (by norm_num) (by omega) (by omega) (by norm_num) (by norm_num) (by norm_num)
        (by norm_num) (by norm_num)
      refine ⟨⟨?_, ?_⟩, ?_, ?_⟩
      · show (_expand_tiepoint_array_5km 5 270 5 arr 5 5).d0 = scans * (2 * 5)
        rw [hd0x, ha0, ha1x]
      · show (_expand_tiepoint_array_5km 5 270 5 arr 5 5).d1 = 1354
        rw [hd1x]
        norm_num
      · intro r c hr hc
        norm_num at hr hc
        refine hrep r c (by rw [ha0, ha1x]; omega) ?_
        rw [show (2 * (5 / 5) + (270 - 1) * 5 + (if (270:ℕ) = 271 then 0 else 5)
          + 2 * (5 / 5) : ℕ) = 1354 from by norm_num]
        omega
      · intro _
        exact hd1x
    · have ha1x : arr.d1 = 1 := ha1
      have ha2x : arr.d2 = 270 := ha2
      obtain ⟨hd0x, hd1x, hrep⟩ := expand5km_spec 5 271 5 arr 5 5 (by norm_num)
        (by norm_num) (by omega) (by omega) (by norm_num) (by norm_num) (by norm_num)
        (by norm_num) (by norm_num)
      refine ⟨⟨?_, ?_⟩, ?_, ?_⟩
      · show (_expand_tiepoint_array_5km 5 271 5 arr 5 5).d0 = scans * (2 * 5)
        rw [hd0x, ha0, ha1x]
      · show (_expand_tiepoint_array_5km 5 271 5 arr 5 5).d1 = 1354
        rw [hd1x]
        norm_num
      · intro r c hr hc
        norm_num at hr hc
        refine hrep r c (by rw [ha0, ha1x]; omega) ?_
        rw [show (2 * (5 / 5) + (271 - 1) * 5 + (if (271:ℕ) = 271 then 0 else 5)
          + 2 * (5 / 5) : ℕ) = 1354 from by norm_num]
        omega
      · intro _
        exact hd1x

/-- C6 witness: 1km-to-250m geometry on a one-scan corner array. -/
theorem c6_expand_witness :
    (ModisInterpolator.init 1000 250 none
      = .ok { cres := 1000, cscan_len := 10, cscan_width := 1, cscan_full_width := 1354,
              res_factor := 4, fscan_width := 4, fscan_full_width := 5416, fscan_len := 4 })
    ∧ ((expand_tiepoint_dispatch 1000 1 1354 4 (⟨1, 9, 1353, fun _ _ _ => (0:ℝ)⟩ : Arr3 ℝ)
        4 4).d0 = 1 * (10 * 4)
      ∧ (expand_tiepoint_dispatch 1000 1 1354 4 (⟨1, 9, 1353, fun _ _ _ => (0:ℝ)⟩ : Arr3 ℝ)
        4 4).d1 = 5416) :=
  ⟨rfl,
   (c6_expand 1000 250 none
      { cres := 1000, cscan_len := 10, cscan_width := 1, cscan_full_width := 1354,
        res_factor := 4, fscan_width := 4, fscan_full_width := 5416, fscan_len := 4 }
      rfl (Or.inl ⟨rfl, Or.inl rfl⟩) ⟨1, 9, 1353, fun _ _ _ => 0⟩ 1 rfl rfl rfl).1⟩

/-- C5: shape law.  For every supported configuration and every valid
input (equal-shaped arrays whose row count is a multiple of the coarse
scan length), the interpolated longitude and latitude arrays have
row count = input rows * resolution factor and column count =
fscan_full_width. -/
theorem c5_shape (tc : ℝ → ℝ → ℝ × ℝ × ℝ) (fc : ℝ → ℝ → ℝ → ℝ × ℝ)
    (cres fres : ℕ) (w : Option ℕ) (g : ScanGeometry)
    (hg : ModisInterpolator.init cres fres w = .ok g)
    (hpair : (cres = 1000 ∧ (fres = 250 ∨ fres = 500))
      ∨ (cres = 5000 ∧ (fres = 250 ∨ fres = 500 ∨ fres = 1000)
          ∧ (w.getD 271 = 270 ∨ w.getD 271 = 271)))
    (lon lat satz : Arr2 ℝ) (scans : ℕ)
    (hs0 : satz.d0 = scans * g.cscan_len) (hs1 : satz.d1 = g.cscan_full_width)
    (hlon0 : lon.d0 = satz.d0) (hlon1 : lon.d1 = satz.d1)
    (hlat0 : lat.d0 = satz.d0) (hlat1 : lat.d1 = satz.d1) :
    (ModisInterpolator.interpolate tc fc g lon lat satz).map
        (fun p => ((p.1.d0, p.1.d1), (p.2.d0, p.2.d1)))
      = .ok ((satz.d0 * g.res_factor, g.fscan_full_width),
             (satz.d0 * g.res_factor, g.fscan_full_width)) := by
  rcases hpair with ⟨rfl, hf⟩ | ⟨rfl, hf, hw⟩
  · rcases hf with rfl | rfl <;>
      (simp [ModisInterpolator.init, f_factor_of] at hg; subst hg;
       norm_num at hs0 hs1 ⊢;
       simp [ModisInterpolator.interpolate, _interpolate, get_coords_dispatch,
         _get_coords_1km, s_arrays, meshgrid, blend_component, xyz2lonlat_arr,
         lonlat2xyz_arr, expand_tiepoint_dispatch, Except.map, one_minus];
       rw [hs0]; omega)
  · rcases hf with rfl | rfl | rfl <;>
      (simp [ModisInterpolator.init, f_factor_of] at hg; subst hg;
       rcases hw with hw | hw <;>
        (norm_num at hs0 hs1 ⊢;
         simp [ModisInterpolator.interpolate, _interpolate, get_coords_dispatch,
           _get_coords_5km, hw, s_arrays, meshgrid, blend_component, xyz2lonlat_arr,
           lonlat2xyz_arr, expand_tiepoint_dispatch, Except.map, one_minus];
         rw [hs0]; omega))

/-- C5 witness: 1km-to-250m geometry on a one-scan input. -/
theorem c5_shape_witness :
    (ModisInterpolator.init 1000 250 none
      = .ok { cres := 1000, cscan_len := 10, cscan_width := 1, cscan_full_width := 1354,
              res_factor := 4, fscan_width := 4, fscan_full_width := 5416, fscan_len := 4 })
    ∧ (ModisInterpolator.interpolate (fun a b => (a, b, a * b)) (fun a b c => (a + b, c))
        { cres := 1000, cscan_len := 10, cscan_width := 1, cscan_full_width := 1354,
          res_factor := 4, fscan_width := 4, fscan_full_width := 5416, fscan_len := 4 }
        ⟨10, 1354, fun _ _ => 0⟩ ⟨10, 1354, fun _ _ => 0⟩ ⟨10, 1354, fun _ _ => 0⟩).map
        (fun p => ((p.1.d0, p.1.d1), (p.2.d0, p.2.d1)))
      = .ok ((10 * 4, 5416), (10 * 4, 5416)) :=
  ⟨rfl,
   c5_shape (fun a b => (a, b, a * b)) (fun a b c => (a + b, c)) 1000 250 none
     { cres := 1000, cscan_len := 10, cscan_width := 1, cscan_full_width := 1354,
       res_factor := 4, fscan_width := 4, fscan_full_width := 5416, fscan_len := 4 }
     rfl (Or.inl ⟨rfl, Or.inl rfl⟩) ⟨10, 1354, fun _ _ => 0⟩ ⟨10, 1354, fun _ _ => 0⟩
     ⟨10, 1354, fun _ _ => 0⟩ 1 (by norm_num) (by norm_num) rfl rfl rfl rfl⟩

/-- C3: for every fine pixel, the interpolated longitude/latitude pair is
exactly the specification blend: corrected coordinates a_track = s_track,
a_scan = s_scan + s_scan(1-s_scan)c_expansion + s_track(1-s_track)
c_alignment, the bilinear corner blend applied independently to the three
Cartesian components of the converted corner coordinates, converted back
by the external inverse conversion. -/
theorem c3_blend_formula (tc : ℝ → ℝ → ℝ × ℝ × ℝ) (fc : ℝ → ℝ → ℝ → ℝ × ℝ)
    (lon1 lat1 satz1 : Arr2 ℝ)
    (cres cscan_len cscan_width cscan_full_width fscan_len fscan_width fscan_full_width
      res_factor rows_per_scan : ℕ) (x y : Arr1 ℝ)
    (hxy : get_coords_dispatch cres cscan_len cscan_full_width fscan_len fscan_width
      fscan_full_width (satz1.d0 / cscan_len) = .ok (x, y)) (r c : ℕ) :
    (_interpolate tc fc lon1 lat1 satz1 cres cscan_len cscan_width cscan_full_width
        fscan_len fscan_width fscan_full_width res_factor rows_per_scan).map
        (fun p => (p.1.get r c, p.2.get r c))
      = .ok (spec_blend_value tc fc lon1 lat1 satz1 cres cscan_len cscan_width
          cscan_full_width fscan_len fscan_width x y r c) := by
  simp only [_interpolate, hxy]
  simp [spec_blend_value, Except.map, xyz2lonlat_arr, blend_component, s_arrays,
    meshgrid, one_minus]

/-- C3 witness: a degenerate one-pixel 1km configuration. -/
theorem c3_blend_formula_witness :
    get_coords_dispatch 1000 1 1 1 1 1
        ((⟨1, 1, fun _ _ => (0:ℝ)⟩ : Arr2 ℝ).d0 / 1)
      = .ok ((_get_coords_1km 1 1 1 1 1 1).1, (_get_coords_1km 1 1 1 1 1 1).2)
    ∧ (_interpolate (fun a b => (a, b, a * b)) (fun a b c => (a + b, c))
        ⟨1, 1, fun _ _ => 0⟩ ⟨1, 1, fun _ _ => 0⟩ ⟨1, 1, fun _ _ => 0⟩
        1000 1 1 1 1 1 1 1 1).map (fun p => (p.1.get 0 0, p.2.get 0 0))
      = .ok (spec_blend_value (fun a b => (a, b, a * b)) (fun a b c => (a + b, c))
          ⟨1, 1, fun _ _ => 0⟩ ⟨1, 1, fun _ _ => 0⟩ ⟨1, 1, fun _ _ => 0⟩
          1000 1 1 1 1 1 (_get_coords_1km 1 1 1 1 1 1).1 (_get_coords_1km 1 1 1 1 1 1).2
          0 0) :=
  ⟨rfl,
   c3_blend_formula (fun a b => (a, b, a * b)) (fun a b c => (a + b, c))
     ⟨1, 1, fun _ _ => 0⟩ ⟨1, 1, fun _ _ => 0⟩ ⟨1, 1, fun _ _ => 0⟩
     1000 1 1 1 1 1 1 1 1 (_get_coords_1km 1 1 1 1 1 1).1 (_get_coords_1km 1 1 1 1 1 1).2
     rfl 0 0⟩

end Modis
